import Mathlib

/-!
Verification of qxmlcodegen.py (QXmlCodeGen), a schema-directed code
generator that reads an annotated XSD document and emits a C++ header and
source file.  The Python source is shallowly embedded below:

* XML documents are `XNode` trees (tags and attribute keys are kept in the
  raw ElementTree form, namespace-expanded as in braces-URI-then-localname).
* Python exceptions become the `GenError` type; fallible code returns
  `Except GenError`.
* Stream writes (`hdr.write` / `src.write`) become an emission monad
  `EmitM` whose state is the list of chunks written so far, in order, one
  chunk per `write` call in the Python source.
* The class-level mutable dictionaries `ns_map` and `xs_type_map` of
  `XmlCodeGenerator` become an explicit `SharedState` value threaded in and
  out of `xmlcodegen`, so cross-run effects are observable.

Definitions keep the Python names wherever Lean allows.
-/

set_option maxRecDepth 10000

/-! ## Python string primitives used by the generator -/

/-- Does the character list `p` occur at the head of `l`? -/
def beginsWith : List Char → List Char → Bool
  | [], _ => true
  | _ :: _, [] => false
  | p :: ps, c :: cs => p = c && beginsWith ps cs

/-- Replacement of every (non-overlapping, left-to-right) occurrence of
`old` by `new`, on character lists: the semantics of the Python
`str.replace` method for a non-empty pattern.  The `fuel` argument makes
the recursion structural (every step consumes at least one character, so
fuel equal to the input length never runs out); recursion on fuel keeps
every definition in this file reducible by plain iota steps. -/
def replaceChars (old new : List Char) : Nat → List Char → List Char
  | _, [] => []
  | 0, s => s
  | fuel + 1, c :: cs =>
    if old ≠ [] ∧ beginsWith old (c :: cs) = true then
      new ++ replaceChars old new fuel ((c :: cs).drop old.length)
    else
      c :: replaceChars old new fuel cs

/-- Python `s.replace(old, new)` (the generator only uses non-empty `old`). -/
def pyReplace (s old new : String) : String :=
  String.mk (replaceChars old.data new.data s.data.length s.data)

/-- Python `str.lower` restricted to the ASCII range used by the schemas. -/
def pyLower (s : String) : String :=
  String.mk (s.data.map Char.toLower)

/-- Python `str.upper` restricted to the ASCII range used by the schemas. -/
def pyUpper (s : String) : String :=
  String.mk (s.data.map Char.toUpper)

def pyTitleChars : Bool → List Char → List Char
  | _, [] => []
  | prevCased, c :: cs =>
    if c.isAlpha then
      (if prevCased then c.toLower else c.toUpper) :: pyTitleChars true cs
    else
      c :: pyTitleChars false cs

/-- Python `str.title` (ASCII): the first cased character of every run of
cased characters is uppercased, the rest are lowercased. -/
def pyTitle (s : String) : String :=
  String.mk (pyTitleChars false s.data)

/-- Python `", ".join(...)`-style joining. -/
def joinSep (sep : String) : List String → String
  | [] => ""
  | [x] => x
  | x :: y :: xs => x ++ sep ++ joinSep sep (y :: xs)

/-- The indentation string written by `twrite`: tab times `n`. -/
def tabs (n : Nat) : String :=
  String.mk (List.replicate n '\t')

/-- Python interpolation of a value that may be `None` into a format string:
`None` prints as the four letters None. -/
def fmtOpt : Option String → String
  | none => "None"
  | some s => s

/-- `os.path.basename` for POSIX paths. -/
def pyBasename (p : String) : String :=
  String.mk (p.data.foldl (fun acc c => if c = '/' then [] else acc ++ [c]) [])

def lastIndexOf (l : List Char) (ch : Char) : Option Nat :=
  match l.reverse.findIdx? (fun c => c = ch) with
  | none => none
  | some i => some (l.length - 1 - i)

/-- The root part of `os.path.splitext` on a slash-free file name: the
extension starts at the last dot, except that a name consisting only of
dots up to that position has no extension. -/
def splitextRoot (b : String) : String :=
  match lastIndexOf b.data '.' with
  | none => b
  | some d =>
    if (b.data.take d).any (fun c => c ≠ '.') then String.mk (b.data.take d)
    else b

/-! ## Errors

Python exceptions raised (or raisable) by the generator. -/

inductive GenError where
  /-- `raise Exception(msg)` -/
  | exc (msg : String)
  /-- `KeyError` from a missing dictionary or attribute key -/
  | keyError (key : String)
  /-- `ValueError` (bad `int(...)` literal, `str.index` miss, bad enum value) -/
  | valueError (msg : String)
  /-- `IndexError` from indexing an empty string or list -/
  | indexError
  /-- `TypeError` (joining a list containing `None`) -/
  | typeError
  /-- `NotImplementedError` from the `ContentDef` base-class methods -/
  | notImplemented
  /-- `RecursionError`: the recursion-depth bound was reached (the fuel of
  a structurally bounded recursion in this embedding, mirroring the
  Python interpreter limit) -/
  | recursionError
deriving DecidableEq

def parseDigits (l : List Char) : Except GenError Nat :=
  if l.isEmpty then .error (.valueError "invalid literal for int")
  else if l.all Char.isDigit then
    .ok (l.foldl (fun acc c => acc * 10 + (c.toNat - 48)) 0)
  else .error (.valueError "invalid literal for int")

/-- Python `int(s)` on the decimal literals appearing in schemas. -/
def parsePyInt (s : String) : Except GenError Int :=
  match s.data with
  | '-' :: ds => (parseDigits ds).map (fun n => -(n : Int))
  | '+' :: ds => (parseDigits ds).map (fun n => (n : Int))
  | ds => (parseDigits ds).map (fun n => (n : Int))

/-- Python `s.index(ch)`. -/
def pyIndexOf (s : String) (ch : Char) : Except GenError Nat :=
  match s.data.findIdx? (fun c => c = ch) with
  | some i => .ok i
  | none => .error (.valueError "substring not found")

/-! ## Python dictionaries with string keys -/

abbrev StrMap := List (String × String)

def dictGet? (m : StrMap) (k : String) : Option String :=
  (m.find? (fun p => p.1 = k)).map (fun p => p.2)

def dictHas (m : StrMap) (k : String) : Bool :=
  (dictGet? m k).isSome

/-- `m[k] = v`: update in place when the key exists, append otherwise. -/
def dictSet (m : StrMap) (k v : String) : StrMap :=
  if dictHas m k then m.map (fun p => if p.1 = k then (k, v) else p)
  else m ++ [(k, v)]

/-- `m[k]` with `KeyError` on a missing key. -/
def dictGetE (m : StrMap) (k : String) : Except GenError String :=
  match dictGet? m k with
  | some v => .ok v
  | none => .error (.keyError k)

/-! ## XML documents

An ElementTree element: tag and attribute keys are kept raw, i.e. already
namespace-expanded to the braces-URI form; `text` is `none` for an element
with no text, as in Python. -/

inductive XNode where
  | mk (tag : String) (attrib : List (String × String)) (text : Option String)
      (children : List XNode)

def XNode.tag : XNode → String
  | .mk t _ _ _ => t

def XNode.attrib : XNode → List (String × String)
  | .mk _ a _ _ => a

def XNode.text : XNode → Option String
  | .mk _ _ x _ => x

def XNode.children : XNode → List XNode
  | .mk _ _ _ cs => cs

/-- `node.attrib[k]` as an optional lookup (`k in node.attrib` test). -/
def XNode.attr? (n : XNode) (k : String) : Option String :=
  dictGet? (XNode.attrib n) k

/-- `node.attrib[k]` with `KeyError` on a missing attribute. -/
def XNode.attrE (n : XNode) (k : String) : Except GenError String :=
  dictGetE (XNode.attrib n) k

/-- `node.find(path, namespaces)` with the path already expanded to a raw
tag: the first direct child with that tag. -/
def findChild (n : XNode) (t : String) : Option XNode :=
  (XNode.children n).find? (fun c => XNode.tag c = t)

/-- `node.findall(path, namespaces)` with the path already expanded: all
direct children with that tag, in document order. -/
def findAll (n : XNode) (t : String) : List XNode :=
  (XNode.children n).filter (fun c => XNode.tag c = t)

/-! ## Namespace rewriting -/

/-- The fixed annotation namespace (`ns_map` entry for the qxg key). -/
def qxgUri : String := "https://skycoder42.de/xml/schemas/QXmlCodeGen"

/-- `ns_replace`: rewrite every known namespace-expanded partial string to its
short prefix, applying the five replacements of `ns_replace_map` in the
insertion order of the Python dict. -/
def ns_replace (name : String) : String :=
  [("\x7bhttps://skycoder42.de/xml/schemas/QXmlCodeGen\x7d", "qxg:"),
   ("\x7bhttp://www.w3.org/2001/XMLSchema\x7d", "xs:"),
   ("\x7bhttps://www.w3.org/2001/XMLSchema\x7d", "xs:"),
   ("\x7bhttp://www.w3.org/2009/XMLSchema/XMLSchema\x7d", "xs:"),
   ("\x7bhttps://www.w3.org/2009/XMLSchema/XMLSchema\x7d", "xs:")
  ].foldl (fun n kr => pyReplace n kr.1 kr.2) name

/-- `ns_replace_inv`: the inverse direction over the live `ns_map`, whose
entries are qxg (fixed) then xs (the URI taken from the document root),
in that order. -/
def ns_replace_inv (nsXs : String) (name : String) : String :=
  pyReplace (pyReplace name ("qxg:") ("\x7b" ++ qxgUri ++ "\x7d"))
    ("xs:") ("\x7b" ++ nsXs ++ "\x7d")

/-- Expand a short-prefixed path the way `find`/`findall` resolve it against
`ns_map`: the raw tag for URI `uri` and local name `l`. -/
def nsTag (uri l : String) : String :=
  "\x7b" ++ uri ++ "\x7d" ++ l

/-- The raw attribute key of annotation attribute `attr` (`qxg:attr`). -/
def qxgKey (attr : String) : String :=
  nsTag qxgUri attr

/-! ## Generator configuration (`QxgConfig`) and method annotations -/

inductive Visibility where
  | Public
  | Protected
  | Private
deriving DecidableEq

/-- `QxgConfig.Visibility(value)`: lookup of an enum member by value,
`ValueError` when no member has that value. -/
def Visibility.ofValue : String → Except GenError Visibility
  | "public" => .ok .Public
  | "protected" => .ok .Protected
  | "private" => .ok .Private
  | v => .error (.valueError v)

/-- `QxgConfig.Include`; the field modelling the Python attribute named
like the keyword for local inclusion is `localFlag`, and `includeStr` holds
the include path (the element text, possibly `None`). -/
structure QxgInclude where
  includeStr : Option String := none
  localFlag : Bool := false

/-- `QxgConfig`; `prefixStr` models the Python attribute holding the token
inserted before the class name. -/
structure QxgConfig where
  className : String := ""
  prefixStr : String := ""
  ns : String := ""
  visibility : Visibility := .Protected
  includes : List QxgInclude := []
  stdcompat : Bool := false
  schemaUrl : String := ""

/-- `QxgConfig(xsd_path)`: with a path, the class name defaults to the
title-cased base name of the file with its extension stripped. -/
def QxgConfig.init (xsd_path : Option String) : QxgConfig :=
  match xsd_path with
  | none => {}
  | some p => { className := pyTitle (splitextRoot (pyBasename p)) }

/-- `QxgMethod.Param` (its text content may be `None`). -/
structure QxgParam where
  name : String := ""
  type_key : String := ""
  default : Option String := none

structure QxgMethod where
  name : String := ""
  type_key : String := ""
  params : List QxgParam := []
  as_group : Bool := false

/-- The initial value of the class-level dictionary `xs_type_map`. -/
def xs_type_map_init : StrMap :=
  [("xs:string", "QString"),
   ("xs:normalizedString", "QString"),
   ("xs:token", "QString"),
   ("xs:language", "QLocale"),
   ("xs:decimal", "qreal"),
   ("xs:double", "double"),
   ("xs:float", "float"),
   ("xs:integer", "int"),
   ("xs:byte", "qint8"),
   ("xs:short", "qint16"),
   ("xs:int", "qint32"),
   ("xs:long", "qint64"),
   ("xs:unsignedByte", "quint8"),
   ("xs:unsignedShort", "quint16"),
   ("xs:unsignedInt", "quint32"),
   ("xs:unsignedLong", "quint64"),
   ("xs:boolean", "bool"),
   ("xs:date", "QDate"),
   ("xs:time", "QTime"),
   ("xs:dateTime", "QDateTime"),
   ("xs:base64Binary", "QByteArray"),
   ("xs:hexBinary", "QByteArray"),
   ("xs:anyURI", "QUrl"),
   ("", "")]

/-! ## The intermediate representation -/

/-- `TypeContentDef.MethodInfo`; `params` holds raw `qxg:param` texts. -/
structure MethodInfo where
  method : String := ""
  type_key : String := ""
  params : List (Option String) := []

/-- `TypeContentDef`: a leaf reference to an element or group. -/
structure TypeContentDef where
  is_group : Bool := false
  name : String := ""
  member : String := ""
  type_key : String := ""
  inherit : Bool := false
  is_basic_type : Bool := false
  method : Option MethodInfo := none

/-- `ChoiceContentDef` (its `choices` list only ever receives
`TypeContentDef` values in the source). -/
structure ChoiceContentDef where
  choices : List TypeContentDef := []
  unordered : Bool := false
  member : String := ""

mutual
/-- The dynamic type of a content node: one of the four concrete
`ContentDef` subclasses of the source. -/
inductive ContentDef where
  | typeC (t : TypeContentDef)
  | seqC (s : SequenceContentDef)
  | choiceC (c : ChoiceContentDef)
  | allC (a : AllContentDef)

inductive SequenceContentDef where
  | mk (elements : List SeqElem)

/-- `SequenceContentDef.Element`. -/
inductive SeqElem where
  | mk (min max : Int) (element : ContentDef)

inductive AllContentDef where
  | mk (elements : List AllElem)

/-- `AllContentDef.Element`. -/
inductive AllElem where
  | mk (optional : Bool) (element : ContentDef)
end

def SequenceContentDef.elements : SequenceContentDef → List SeqElem
  | .mk es => es

def SeqElem.min : SeqElem → Int
  | .mk mn _ _ => mn

def SeqElem.max : SeqElem → Int
  | .mk _ mx _ => mx

def SeqElem.element : SeqElem → ContentDef
  | .mk _ _ e => e

def SeqElem.is_single (e : SeqElem) : Bool :=
  SeqElem.min e == 1 && SeqElem.max e == 1

def SeqElem.is_optional (e : SeqElem) : Bool :=
  SeqElem.min e == 0 && SeqElem.max e == 1

def AllContentDef.elements : AllContentDef → List AllElem
  | .mk es => es

def AllElem.optional : AllElem → Bool
  | .mk o _ => o

def AllElem.element : AllElem → ContentDef
  | .mk _ e => e

/-- `MemberDef` (an attribute member). -/
structure MemberDef where
  name : String := ""
  member : String := ""
  xmlType : String := ""
  cppType : String := ""
  required : Bool := false
  default : Option String := none

/-- The fields shared by every `TypeDef` subclass. -/
structure TypeDefBase where
  name : String := ""
  members : List MemberDef := []
  member_groups : List TypeContentDef := []
  declare : Bool := false

/-- The dynamic type of a record definition: plain `TypeDef` is abstract in
the source, `AttrGroupTypeDef` adds nothing to it. -/
inductive TypeDef where
  | attrGroupT (b : TypeDefBase)
  | simpleT (b : TypeDefBase) (contentMember contentXmlType contentCppType : String)
  | complexT (b : TypeDefBase) (baseType : String) (content : Option ContentDef)
  | mixedT (b : TypeDefBase) (baseType : String) (content : Option ContentDef)
      (contentMember contentCppType : String)
  | groupT (b : TypeDefBase) (content : Option ContentDef)

def TypeDef.base : TypeDef → TypeDefBase
  | .attrGroupT b => b
  | .simpleT b _ _ _ => b
  | .complexT b _ _ => b
  | .mixedT b _ _ _ _ => b
  | .groupT b _ => b

def TypeDef.name (t : TypeDef) : String :=
  (TypeDef.base t).name

/-- `isinstance(t, ComplexTypeDef)` (`MixedTypeDef` is a subclass). -/
def TypeDef.isComplex : TypeDef → Bool
  | .complexT _ _ _ => true
  | .mixedT _ _ _ _ _ => true
  | _ => false

/-- `isinstance(t, GroupTypeDef)`. -/
def TypeDef.isGroup : TypeDef → Bool
  | .groupT _ _ => true
  | _ => false

structure EnumElement where
  xmlValue : String := ""
  key : String := ""
  value : String := ""

/-- The dynamic type of a top-level simple type. -/
inductive BasicTypeDef where
  | plainB (name xmlType cppType : String)
  | listB (name xmlType cppType : String)
  | unionB (name : String) (xmlTypeList cppTypeList : List String)
  | enumB (name xmlType cppType baseType : String) (elements : List EnumElement)

def BasicTypeDef.name : BasicTypeDef → String
  | .plainB n _ _ => n
  | .listB n _ _ => n
  | .unionB n _ _ => n
  | .enumB n _ _ _ _ => n

/-- `basic_def.name = node.attrib["name"]` at the end of `read_simple_type`. -/
def BasicTypeDef.setName (n : String) : BasicTypeDef → BasicTypeDef
  | .plainB _ x c => .plainB n x c
  | .listB _ x c => .listB n x c
  | .unionB _ xl cl => .unionB n xl cl
  | .enumB _ x c b es => .enumB n x c b es

/-! ## `ContentDef` virtual methods -/

def TypeContentDef.generate_type (t : TypeContentDef) : String :=
  match t.method with
  | none => t.type_key
  | some mi => mi.type_key

def TypeContentDef.read_method (t : TypeContentDef) : String :=
  match t.method with
  | some mi => mi.method
  | none =>
    if t.is_basic_type then "readContent<" ++ t.type_key ++ ">"
    else "read_" ++ TypeContentDef.generate_type t

/-- `", ".join(params)`: `TypeError` when the list holds a `None`. -/
def joinOptEls (sep : String) (l : List (Option String)) : Except GenError String :=
  if l.all Option.isSome then .ok (joinSep sep (l.map (fun o => o.getD "")))
  else .error .typeError

def TypeContentDef.read_method_params (t : TypeContentDef) : Except GenError String :=
  match t.method with
  | none => .ok ""
  | some mi =>
    if mi.params.isEmpty then .ok ""
    else (joinOptEls ", " mi.params).map (fun j => ", " ++ j)

def ChoiceContentDef.generate_type (c : ChoiceContentDef) : String :=
  "variant<" ++ joinSep ", " (c.choices.map TypeContentDef.generate_type) ++ ">"

def ContentDef.is_inherited : ContentDef → Bool
  | .typeC t => t.inherit
  | _ => false

def ContentDef.is_group_type : ContentDef → Bool
  | .typeC t => t.is_group
  | _ => false

/-- `generate_type`, raising `NotImplementedError` on the base class
(`SequenceContentDef` and `AllContentDef` do not override it). -/
def ContentDef.generate_type : ContentDef → Except GenError String
  | .typeC t => .ok (TypeContentDef.generate_type t)
  | .choiceC c => .ok (ChoiceContentDef.generate_type c)
  | _ => .error .notImplemented

def ContentDef.member_name : ContentDef → Except GenError String
  | .typeC t => .ok t.member
  | .choiceC c => .ok c.member
  | _ => .error .notImplemented

def ContentDef.xml_name : ContentDef → Except GenError String
  | .typeC t => .ok t.name
  | _ => .error .notImplemented

def ContentDef.read_method : ContentDef → Except GenError String
  | .typeC t => .ok (TypeContentDef.read_method t)
  | c => (ContentDef.generate_type c).map (fun g => "read_" ++ g)

def ContentDef.read_method_params : ContentDef → Except GenError String
  | .typeC t => TypeContentDef.read_method_params t
  | _ => .ok ""

mutual
def ContentDef.inherits : ContentDef → List String
  | .typeC t => if t.inherit then [t.type_key] else []
  | .seqC s => SequenceContentDef.inherits s
  | .choiceC _ => []
  | .allC _ => []

def SequenceContentDef.inherits : SequenceContentDef → List String
  | .mk elems => seqElemsInherits elems

def seqElemsInherits : List SeqElem → List String
  | [] => []
  | .mk _ _ e :: rest => ContentDef.inherits e ++ seqElemsInherits rest
end

/-! ## `TypeDef` virtual methods -/

/-- `TypeDef.inherits`: the type keys of the inheriting attribute-group
references. -/
def TypeDefBase.inheritsBase (b : TypeDefBase) : List String :=
  (b.member_groups.filter (fun m => m.inherit)).map (fun m => m.type_key)

def contentInherits : Option ContentDef → List String
  | none => []
  | some c => ContentDef.inherits c

/-- Virtual `inherits()` over the `TypeDef` hierarchy: `ComplexTypeDef`
prepends its base type and the content inherits before the attribute-group
inherits of the base class; `GroupTypeDef` prepends only the content
inherits. -/
def TypeDef.inherits : TypeDef → List String
  | .attrGroupT b => TypeDefBase.inheritsBase b
  | .simpleT b _ _ _ => TypeDefBase.inheritsBase b
  | .complexT b baseType content =>
      (if baseType ≠ "" then [baseType] else []) ++ contentInherits content
        ++ TypeDefBase.inheritsBase b
  | .mixedT b baseType content _ _ =>
      (if baseType ≠ "" then [baseType] else []) ++ contentInherits content
        ++ TypeDefBase.inheritsBase b
  | .groupT b content =>
      contentInherits content ++ TypeDefBase.inheritsBase b

/-! ## The emission monad

A Python text stream is modelled as the list of strings passed to its
`write` method, in call order; raising an exception keeps the chunks
already written (they are flushed when the enclosing `with` block closes
the file). -/

abbrev EmitM := ExceptT GenError (StateM (List String))

/-- One `write` call. -/
def wr (s : String) : EmitM Unit :=
  modify (fun out => out ++ [s])

/-- `ContentDef.twrite`: indentation then text, two `write` calls. -/
def twrite (intendent : Nat) (text : String) : EmitM Unit := do
  wr (tabs intendent)
  wr text

def liftE {α : Type} : Except GenError α → EmitM α
  | .ok a => pure a
  | .error e => throw e

/-- `ContentDef.write_return`. -/
def write_return (intendent : Nat) (return_target : String) (ok : Bool) : EmitM Unit :=
  if return_target = "" then
    if !ok then twrite intendent ("throwChild(reader);\n") else pure ()
  else
    twrite intendent (return_target ++ " = " ++ (if ok then "true" else "false") ++ ";\n")

/-! ## `write_hdr_content` over the content hierarchy -/

/-- `ContentDef.write_hdr_content` (the base-class version): write the
field unless inherited, swallowing `NotImplementedError`. -/
def writeHdrContentBase (c : ContentDef) : EmitM Unit :=
  tryCatch
    (if !(ContentDef.is_inherited c) then do
        let gt ← liftE (ContentDef.generate_type c)
        let mn ← liftE (ContentDef.member_name c)
        wr ("\t\t" ++ gt ++ " " ++ mn ++ ";\n")
      else pure ())
    (fun e => match e with
      | .notImplemented => pure ()
      | e1 => throw e1)

mutual
def ContentDef.write_hdr_content : ContentDef → EmitM Unit
  | .typeC t => writeHdrContentBase (.typeC t)
  | .choiceC c =>
    if c.unordered then
      c.choices.forM (fun ch =>
        wr ("\t\tQList<" ++ TypeContentDef.generate_type ch ++ "> " ++ ch.member ++ ";\n"))
    else writeHdrContentBase (.choiceC c)
  | .seqC (.mk es) => seqHdrElems es
  | .allC (.mk es) => allHdrElems es

/-- The loop body of `SequenceContentDef.write_hdr_content`. -/
def seqHdrElems : List SeqElem → EmitM Unit
  | [] => pure ()
  | .mk mn mx e :: rest => do
    let el := SeqElem.mk mn mx e
    if ContentDef.is_inherited e then pure ()
    else if SeqElem.is_single el then ContentDef.write_hdr_content e
    else if SeqElem.is_optional el then do
      let gt ← liftE (ContentDef.generate_type e)
      let m ← liftE (ContentDef.member_name e)
      wr ("\t\toptional<" ++ gt ++ "> " ++ m ++ ";\n")
    else
      match e with
      | .choiceC c =>
        if c.unordered then ContentDef.write_hdr_content (.choiceC c)
        else do
          let gt ← liftE (ContentDef.generate_type (.choiceC c))
          let m ← liftE (ContentDef.member_name (.choiceC c))
          wr ("\t\tQList<" ++ gt ++ "> " ++ m ++ ";\n")
      | e1 => do
        let gt ← liftE (ContentDef.generate_type e1)
        let m ← liftE (ContentDef.member_name e1)
        wr ("\t\tQList<" ++ gt ++ "> " ++ m ++ ";\n")
    seqHdrElems rest

/-- The loop body of `AllContentDef.write_hdr_content`. -/
def allHdrElems : List AllElem → EmitM Unit
  | [] => pure ()
  | .mk opt e :: rest => do
    if opt then do
      let gt ← liftE (ContentDef.generate_type e)
      let m ← liftE (ContentDef.member_name e)
      wr ("\t\toptional<" ++ gt ++ "> " ++ m ++ ";\n")
    else ContentDef.write_hdr_content e
    allHdrElems rest
end

/-! ## `write_src_content` over the content hierarchy -/

/-- `TypeContentDef.write_src_content`. -/
def typeCWriteSrc (t : TypeContentDef) (need_newline : Bool) (intendent : Nat)
    (target_member return_target : String) : EmitM Bool := do
  if need_newline then wr ("\n")
  let target_member := if target_member = "" then "data." ++ t.member else target_member
  if t.is_group then
    if t.inherit then
      twrite intendent ("hasNext = " ++ TypeContentDef.read_method t ++ "(reader, data, hasNext);\n")
    else do
      let ps ← liftE (TypeContentDef.read_method_params t)
      twrite intendent ("hasNext = " ++ TypeContentDef.read_method t ++ "(reader, "
        ++ target_member ++ ", hasNext" ++ ps ++ ");\n")
  else do
    twrite intendent ("if(reader.name() == QStringLiteral(\"" ++ t.name ++ "\")) \x7b\n")
    let ps ← liftE (TypeContentDef.read_method_params t)
    twrite (intendent + 1) (TypeContentDef.read_method t ++ "(reader, " ++ target_member ++ ps ++ ");\n")
    write_return (intendent + 1) return_target true
    twrite intendent ("\x7d else\n")
    write_return (intendent + 1) return_target false
  pure true

/-- The alternative loop of `ChoiceContentDef.write_src_content`, unordered
case; `is_first` is threaded exactly as in the source. -/
def choiceUnorderedLoop (intendent : Nat) (return_target : String) :
    Bool → List TypeContentDef → EmitM Unit
  | _, [] => pure ()
  | is_first, ch :: rest => do
    if is_first then twrite (intendent + 1) ("if")
    else twrite (intendent + 1) ("\x7d else if")
    wr ("(reader.name() == QStringLiteral(\"" ++ ch.name ++ "\")) \x7b\n")
    twrite (intendent + 2) (TypeContentDef.generate_type ch ++ " _element;\n")
    let ps ← liftE (TypeContentDef.read_method_params ch)
    twrite (intendent + 2) (TypeContentDef.read_method ch ++ "(reader, _element" ++ ps ++ ");\n")
    write_return (intendent + 2) return_target true
    twrite (intendent + 2) ("data." ++ ch.member ++ ".append(std::move(_element));\n")
    choiceUnorderedLoop intendent return_target false rest

/-- The alternative loop of `ChoiceContentDef.write_src_content`, ordered
case. -/
def choiceOrderedLoop (intendent : Nat) (target_member return_target : String) :
    Bool → List TypeContentDef → EmitM Unit
  | _, [] => pure ()
  | is_first, ch :: rest => do
    if is_first then twrite intendent ("if")
    else twrite intendent ("\x7d else if")
    wr ("(reader.name() == QStringLiteral(\"" ++ ch.name ++ "\")) \x7b\n")
    twrite (intendent + 1) (target_member ++ " = " ++ TypeContentDef.generate_type ch ++ "\x7b\x7d;\n")
    let ps ← liftE (TypeContentDef.read_method_params ch)
    twrite (intendent + 1) (TypeContentDef.read_method ch ++ "(reader, get<"
      ++ TypeContentDef.generate_type ch ++ ">(" ++ target_member ++ ")" ++ ps ++ ");\n")
    write_return (intendent + 1) return_target true
    choiceOrderedLoop intendent target_member return_target false rest

/-- `ChoiceContentDef.write_src_content`. -/
def choiceWriteSrc (c : ChoiceContentDef) (need_newline : Bool) (intendent : Nat)
    (target_member return_target : String) : EmitM Bool := do
  if c.choices.isEmpty then pure need_newline
  else do
    if need_newline then wr ("\n")
    if c.unordered then do
      twrite intendent ("while(hasNext && (_max == -1 || _total < _max)) \x7b\n")
      choiceUnorderedLoop intendent return_target true c.choices
      twrite (intendent + 1) ("\x7d else\n")
      twrite (intendent + 2) ("break;\n")
      twrite (intendent + 1) ("++_total;\n")
      twrite (intendent + 1) ("hasNext = reader.readNextStartElement();\n")
      twrite (intendent + 1) ("checkError(reader);\n")
      twrite intendent ("\x7d\n")
      pure true
    else do
      let target_member := if target_member = "" then "data." ++ c.member else target_member
      choiceOrderedLoop intendent target_member return_target true c.choices
      twrite intendent ("\x7d else\n")
      write_return (intendent + 1) return_target false
      pure true

/-- The element loop of `AllContentDef.write_src_content`: emits each
alternative and returns `req_list`, the indices of the required ones.
In the source the read call of the optional branch names the hardcoded
temporary `_element_1` although the declared temporary is indexed by the
running counter. -/
def allSrcElems (intendent : Nat) : List AllElem → Nat → EmitM (List Nat)
  | [], _ => pure []
  | .mk opt e :: rest, cnt => do
    wr ("\n")
    if opt then do
      let gt ← liftE (ContentDef.generate_type e)
      twrite (intendent + 2) (gt ++ " _element_" ++ toString cnt ++ ";\n")
      let xn ← liftE (ContentDef.xml_name e)
      twrite (intendent + 2) ("if(reader.name() == QStringLiteral(\"" ++ xn ++ "\")) \x7b\n")
      twrite (intendent + 3) ("if(_usedElements.contains(" ++ toString cnt ++ "))\n")
      twrite (intendent + 4) ("break;\n")
      let rm ← liftE (ContentDef.read_method e)
      let ps ← liftE (ContentDef.read_method_params e)
      twrite (intendent + 3) (rm ++ "(reader, _element_1" ++ ps ++ ");\n")
      twrite (intendent + 3) ("_usedElements.insert(" ++ toString cnt ++ ");\n")
      let m ← liftE (ContentDef.member_name e)
      twrite (intendent + 3) ("data." ++ m ++ " = std::move(_element_" ++ toString cnt ++ ");\n")
      twrite (intendent + 3) ("hasNext = reader.readNextStartElement();\n")
      twrite (intendent + 3) ("checkError(reader);\n")
      twrite (intendent + 3) ("continue;\n")
      twrite (intendent + 2) ("\x7d\n")
      allSrcElems intendent rest (cnt + 1)
    else do
      let xn ← liftE (ContentDef.xml_name e)
      twrite (intendent + 2) ("if(reader.name() == QStringLiteral(\"" ++ xn ++ "\")) \x7b\n")
      twrite (intendent + 3) ("if(_usedElements.contains(" ++ toString cnt ++ "))\n")
      twrite (intendent + 4) ("break;\n")
      let rm ← liftE (ContentDef.read_method e)
      let m ← liftE (ContentDef.member_name e)
      let _ps ← liftE (ContentDef.read_method_params e)
      twrite (intendent + 3) (rm ++ "(reader, data." ++ m ++ ");\n")
      twrite (intendent + 3) ("_usedElements.insert(" ++ toString cnt ++ ");\n")
      twrite (intendent + 3) ("hasNext = reader.readNextStartElement();\n")
      twrite (intendent + 3) ("checkError(reader);\n")
      twrite (intendent + 3) ("continue;\n")
      twrite (intendent + 2) ("\x7d\n")
      let r ← allSrcElems intendent rest (cnt + 1)
      pure (cnt :: r)

/-- `AllContentDef.write_src_content`. -/
def allWriteSrc (elems : List AllElem) (need_newline : Bool) (intendent : Nat)
    (_target_member _return_target : String) : EmitM Bool := do
  if elems.isEmpty then pure need_newline
  else do
    if need_newline then wr ("\n")
    twrite intendent ("\x7b\n")
    twrite (intendent + 1) ("QSet<int> _usedElements;\n")
    twrite (intendent + 1) ("while(hasNext) \x7b")
    let req_list ← allSrcElems intendent elems 0
    wr ("\n")
    twrite (intendent + 2) ("break;\n")
    twrite (intendent + 1) ("\x7d\n")
    twrite (intendent + 1) ("if(!_usedElements.contains(QSet<int> \x7b"
      ++ joinSep ", " (req_list.map toString) ++ "\x7d))\n")
    twrite (intendent + 2) ("throwNoChild(reader);\n")
    twrite intendent ("\x7d\n")
    pure true

/-- The general repeated-element branch of the sequence slot loop. -/
def seqSrcListSlot (wsc : ContentDef → Bool → Nat → String → String → EmitM Bool)
    (intendent : Nat) (mn mx : Int) (e : ContentDef) (nn : Bool) : EmitM Bool := do
  if mn == mx then do
    let m ← liftE (ContentDef.member_name e)
    twrite intendent ("data." ++ m ++ ".reserve(" ++ toString mx ++ ");\n")
  twrite intendent ("while(hasNext")
  if mx ≠ -1 then do
    let m ← liftE (ContentDef.member_name e)
    wr (" && data." ++ m ++ ".size() < " ++ toString mx)
  wr (") \x7b\n")
  let gt ← liftE (ContentDef.generate_type e)
  twrite (intendent + 1) (gt ++ " _element;\n")
  let _ ← wsc e false (intendent + 1) ("_element") ("_ok")
  twrite (intendent + 1) ("if(!_ok)\n")
  twrite (intendent + 2) ("break;\n")
  let m ← liftE (ContentDef.member_name e)
  twrite (intendent + 1) ("data." ++ m ++ ".append(std::move(_element));\n")
  twrite (intendent + 1) ("hasNext = reader.readNextStartElement();\n")
  twrite (intendent + 1) ("checkError(reader);\n")
  twrite intendent ("\x7d\n")
  if mn > 0 then do
    let m ← liftE (ContentDef.member_name e)
    twrite intendent ("if(data." ++ m ++ ".size() < " ++ toString mn ++ ")\n")
    twrite (intendent + 1) ("throwSizeError(reader, " ++ toString mn ++ ", data."
      ++ m ++ ".size());\n")
  pure nn
/-- The slot loop of `SequenceContentDef.write_src_content`; the running
`need_newline` variable of the source is threaded as `nn` (it is only
reassigned in the unordered-choice branch). -/
def seqSrcElems (wsc : ContentDef → Bool → Nat → String → String → EmitM Bool)
    (intendent : Nat) : List SeqElem → Bool → EmitM Bool
  | [], nn => pure nn
  | .mk mn mx e :: rest, nn => do
    let el := SeqElem.mk mn mx e
    wr ("\n")
    let nn2 ←
      (if (ContentDef.is_group_type e && SeqElem.is_single el)
          || (match e with | .allC _ => true | _ => false) then do
        let _ ← wsc e false intendent "" ("_ok")
        pure nn
      else if ContentDef.is_group_type e then do
        let m ← liftE (ContentDef.member_name e)
        twrite intendent ("data." ++ m ++ ".reserve(" ++ toString mx ++ ");\n")
        twrite intendent ("for(auto i = 0; i < " ++ toString mx ++ "; i++) \x7b\n")
        let gt ← liftE (ContentDef.generate_type e)
        twrite (intendent + 1) (gt ++ " _element;\n")
        let _ ← wsc e false (intendent + 1) ("_element") ("_ok")
        let m2 ← liftE (ContentDef.member_name e)
        twrite (intendent + 1) ("data." ++ m2 ++ ".append(std::move(_element));\n")
        twrite intendent ("\x7d\n")
        pure nn
      else if SeqElem.is_single el then do
        twrite intendent ("if(!hasNext)\n")
        twrite (intendent + 1) ("throwNoChild(reader);\n")
        let _ ← wsc e false intendent
          (if ContentDef.is_inherited e then "data" else "") ("_ok")
        twrite intendent ("if(_ok) \x7b\n")
        twrite (intendent + 1) ("hasNext = reader.readNextStartElement();\n")
        twrite (intendent + 1) ("checkError(reader);\n")
        twrite intendent ("\x7d else\n")
        twrite (intendent + 1) ("throwChild(reader);\n")
        pure nn
      else if SeqElem.is_optional el then do
        twrite intendent ("if(hasNext) \x7b\n")
        let gt ← liftE (ContentDef.generate_type e)
        twrite (intendent + 1) (gt ++ " _element;\n")
        let _ ← wsc e false (intendent + 1) ("_element") ("_ok")
        twrite (intendent + 1) ("if(_ok) \x7b\n")
        let m ← liftE (ContentDef.member_name e)
        twrite (intendent + 2) ("data." ++ m ++ " = std::move(_element);\n")
        twrite (intendent + 2) ("hasNext = reader.readNextStartElement();\n")
        twrite (intendent + 2) ("checkError(reader);\n")
        twrite (intendent + 1) ("\x7d\n")
        twrite intendent ("\x7d\n")
        pure nn
      else
        match e with
        | .choiceC c =>
          if c.unordered then do
            twrite intendent ("\x7b\n")
            twrite (intendent + 1) ("int _total = 0;\n")
            twrite (intendent + 1) ("const int _max = " ++ toString mx ++ ";\n")
            let nn3 ← wsc (.choiceC c) nn (intendent + 1) "" ""
            if mn > 0 then do
              twrite (intendent + 1) ("if(_total < " ++ toString mn ++ ")\n")
              twrite (intendent + 2) ("throwSizeError(reader, " ++ toString mn ++ ", _total);\n")
            twrite intendent ("\x7d\n")
            pure nn3
          else seqSrcListSlot wsc intendent mn mx (.choiceC c) nn
        | e1 => seqSrcListSlot wsc intendent mn mx e1 nn)
    seqSrcElems wsc intendent rest nn2


/-- `SequenceContentDef.write_src_content`. -/
def seqWriteSrc (wsc : ContentDef → Bool → Nat → String → String → EmitM Bool)
    (elems : List SeqElem) (need_newline : Bool) (intendent : Nat)
    (_target_member _return_target : String) : EmitM Bool := do
  if elems.isEmpty then pure need_newline
  else do
    if need_newline then wr ("\n")
    twrite intendent ("auto _ok = false;\n")
    let _ ← seqSrcElems wsc intendent elems need_newline
    pure true


/-- Virtual dispatch of `write_src_content`; the fuel argument keeps the
recursion through sequence slots structural. -/
def ContentDef.write_src_content : Nat → ContentDef → Bool → Nat → String → String → EmitM Bool
  | 0, _, _, _, _, _ => throw .recursionError
  | fuel + 1, .typeC t, nn, i, tm, rt => typeCWriteSrc t nn i tm rt
  | fuel + 1, .choiceC c, nn, i, tm, rt => choiceWriteSrc c nn i tm rt
  | fuel + 1, .seqC (.mk es), nn, i, tm, rt => seqWriteSrc (fun c nn2 i2 tm2 rt2 => ContentDef.write_src_content fuel c nn2 i2 tm2 rt2) es nn i tm rt
  | fuel + 1, .allC (.mk es), nn, i, tm, rt => allWriteSrc es nn i tm rt

/-! ## The schema-model builder -/

/-- `read_qxg`: look up the raw annotation attribute, else the default
(optionally mapped through `xs_type_map`, raising `KeyError` on a miss). -/
def read_qxg (nsXs : String) (xsMap : StrMap) (node : XNode) (attr dflt : String)
    (map_type : Bool) : Except GenError String :=
  let rep_attr := ns_replace_inv nsXs ("qxg:" ++ attr)
  match XNode.attr? node rep_attr with
  | some v => .ok v
  | none => if map_type then dictGetE xsMap dflt else .ok dflt

/-- `read_occurs`: default bounds 1, `maxOccurs="unbounded"` encoded `-1`. -/
def read_occurs (node : XNode) : Except GenError (Int × Int) := do
  let mn ← (match XNode.attr? node "minOccurs" with
    | some s => parsePyInt s
    | none => .ok 1)
  match XNode.attr? node "maxOccurs" with
  | some s =>
    if s = "unbounded" then .ok (mn, -1)
    else do
      let mx ← parsePyInt s
      .ok (mn, mx)
  | none => .ok (mn, 1)

/-- `read_config`: starts from `QxgConfig()` (no path, hence an empty class
name) and overrides only the attributes present on the `qxg:config` node. -/
def read_config (node : XNode) : Except GenError QxgConfig := do
  let config : QxgConfig := {}
  let config := match XNode.attr? node "class" with
    | some v => { config with className := v }
    | none => config
  let config := match XNode.attr? node "prefix" with
    | some v => { config with prefixStr := v }
    | none => config
  let config := match XNode.attr? node "ns" with
    | some v => { config with ns := v }
    | none => config
  let config := match XNode.attr? node "stdcompat" with
    | some v => { config with stdcompat := pyLower v = "true" }
    | none => config
  let config := match XNode.attr? node "schemaUrl" with
    | some v => { config with schemaUrl := v }
    | none => config
  let config ← (match XNode.attr? node "visibility" with
    | some v => (Visibility.ofValue (pyLower v)).map (fun vis => { config with visibility := vis })
    | none => .ok config)
  let incs := (findAll node (qxgKey "include")).map (fun child =>
    ({ includeStr := XNode.text child,
       localFlag := match XNode.attr? child "local" with
         | some lv => pyLower lv = "true"
         | none => false } : QxgInclude))
  .ok { config with includes := incs }

/-- `read_method` (a top-level `qxg:method` declaration). -/
def read_method (node : XNode) : Except GenError QxgMethod := do
  let nm ← XNode.attrE node "name"
  let tk ← XNode.attrE node "type"
  let ag := match XNode.attr? node "asGroup" with
    | some v => pyLower v = "true"
    | none => false
  let params ← (findAll node (qxgKey "param")).mapM (fun child => do
    let pn ← XNode.attrE child "name"
    let pt ← XNode.attrE child "type"
    .ok ({ name := pn, type_key := pt, default := XNode.text child } : QxgParam))
  .ok { name := nm, type_key := tk, as_group := ag, params := params }

def lowerFirstE (s : String) : Except GenError String :=
  match s.data with
  | [] => .error .indexError
  | c :: cs => .ok (String.mk (Char.toLower c :: cs))

/-- `read_type_content`: build a `TypeContentDef` leaf from an `xs:element`
or `xs:group` node. -/
def read_type_content (nsXs : String) (xsMap : StrMap) (methods : List QxgMethod)
    (node : XNode) (allow_inherit allow_unnamed : Bool) : Except GenError TypeContentDef := do
  let nstag := ns_replace (XNode.tag node)
  let content : TypeContentDef := {}
  let inherit_mem ← read_qxg nsXs xsMap node "inherit" "" false
  let content ←
    (if inherit_mem ≠ "" then
      if allow_inherit then .ok { content with inherit := pyLower inherit_mem = "true" }
      else .error (.exc ("Found qxg:inherit on " ++ nstag
        ++ " - but it is not allowed in the current scope"))
    else .ok content)
  let content ←
    (if nstag = "xs:element" then do
      let nm ← XNode.attrE node "name"
      let memDefault ← lowerFirstE nm
      let mem ← read_qxg nsXs xsMap node "member" memDefault false
      let tk ← XNode.attrE node "type"
      let content := { content with is_group := false, name := nm, member := mem, type_key := tk }
      let bt ← read_qxg nsXs xsMap node "basicType" "false" false
      if pyLower bt = "true" then .ok { content with is_basic_type := true }
      else if dictHas xsMap tk then do
        let mapped ← dictGetE xsMap tk
        .ok { content with is_basic_type := true, type_key := mapped }
      else .ok content
    else if nstag = "xs:group" then do
      let mem ← read_qxg nsXs xsMap node "member" "" false
      if mem = "" ∧ ¬content.inherit ∧ ¬allow_unnamed then
        .error (.exc "A xs:group must have an explicitly set qxg:member or qxg:inherit set to true")
      else do
        let rf ← XNode.attrE node "ref"
        .ok { content with is_group := true, member := mem, type_key := rf }
    else .error (.exc "UNREACHABLE"))
  let method_mem ← read_qxg nsXs xsMap node "method" "" false
  if method_mem = "" then .ok content
  else
    let mtk := methods.foldl (fun acc m => if m.name = method_mem then m.type_key else acc) ""
    if mtk = "" then
      .error (.exc "qxg:method specified with a method that was not declared beforehand")
    else
      let ps := (findAll node (qxgKey "param")).map (fun child => XNode.text child)
      .ok { content with method := some { method := method_mem, type_key := mtk, params := ps } }

/-- The recursion budget handed to the recursive readers and emitters:
the Python interpreter default recursion limit.  Every recursive call
consumes one unit, so this is reached only by schemas nested about a
thousand levels deep, where the Python source raises `RecursionError`. -/
def genFuel : Nat := 1000

mutual
/-- `read_choice_content`. -/
def read_choice_content (nsXs : String) (xsMap : StrMap) (methods : List QxgMethod) :
    Nat → XNode → Bool → Except GenError ChoiceContentDef
  | 0, _, _ => .error .recursionError
  | fuel + 1, node, allow_unordered => do
    let unordered ← (read_qxg nsXs xsMap node "unordered" "false" false).map
      (fun v => pyLower v == "true")
    if unordered ∧ ¬allow_unordered then
      .error (.exc "Found qxg:unordered in xs:choice, but that is only allowed for choices that are in a xs:sequence")
    else do
      let mem ← read_qxg nsXs xsMap node "member" "" false
      if mem = "" ∧ ¬unordered then
        .error (.exc "A xs:choice must have an explicitly set qxg:member")
      else do
        let cs ← read_choice_children nsXs xsMap methods unordered fuel (XNode.children node)
        .ok { choices := cs, unordered := unordered, member := mem }

/-- The child loop of `read_choice_content`: nested choices are spliced,
elements are appended, anything else raises. -/
def read_choice_children (nsXs : String) (xsMap : StrMap) (methods : List QxgMethod)
    (unordered : Bool) : Nat → List XNode → Except GenError (List TypeContentDef)
  | _, [] => .ok []
  | 0, _ :: _ => .error .recursionError
  | fuel + 1, child :: rest => do
    let nstag := ns_replace (XNode.tag child)
    if nstag = "xs:choice" then do
      let sub ← read_choice_content nsXs xsMap methods fuel child false
      let tailCs ← read_choice_children nsXs xsMap methods unordered fuel rest
      .ok (sub.choices ++ tailCs)
    else if nstag = "xs:element" then do
      let tc ← read_type_content nsXs xsMap methods child false (¬unordered)
      let tailCs ← read_choice_children nsXs xsMap methods unordered fuel rest
      .ok (tc :: tailCs)
    else .error (.exc ("Unsupported element " ++ nstag ++ " within a xs:choice"))
end

/-- The child loop of `read_all_content` (the fuel is only forwarded to
the choice reader). -/
def read_all_children (nsXs : String) (xsMap : StrMap) (methods : List QxgMethod)
    (fuel : Nat) : List XNode → Except GenError (List AllElem)
  | [] => .ok []
  | child :: rest => do
    let nstag := ns_replace (XNode.tag child)
    let occ ← read_occurs child
    if occ.1 > 1 ∨ occ.2 ≠ 1 then
      .error (.exc "Invalid occurrences on element within xs:all")
    else do
      let e ←
        (if nstag = "xs:choice" then
          (read_choice_content nsXs xsMap methods fuel child false).map ContentDef.choiceC
        else if nstag = "xs:element" then
          (read_type_content nsXs xsMap methods child false false).map ContentDef.typeC
        else .error (.exc ("Unsupported element " ++ nstag ++ " within a xs:choice")))
      let tailEs ← read_all_children nsXs xsMap methods fuel rest
      .ok (AllElem.mk (occ.1 == 0) e :: tailEs)

/-- `read_all_content` (the error string for an unsupported child names
`xs:choice`, as in the source). -/
def read_all_content (nsXs : String) (xsMap : StrMap) (methods : List QxgMethod)
    (fuel : Nat) (node : XNode) : Except GenError AllContentDef :=
  (read_all_children nsXs xsMap methods fuel (XNode.children node)).map AllContentDef.mk

mutual
/-- `read_sequence_content`. -/
def read_sequence_content (nsXs : String) (xsMap : StrMap) (methods : List QxgMethod) :
    Nat → XNode → Except GenError SequenceContentDef
  | 0, _ => .error .recursionError
  | fuel + 1, node => do
    let es ← read_sequence_children nsXs xsMap methods fuel (XNode.children node)
    .ok (.mk es)

/-- The child loop of `read_sequence_content`: a nested `(1,1)` sequence is
spliced slot-wise, a nested sequence with any other occurrence raises, an
`xs:all` raises, a choice or element or group becomes one slot. -/
def read_sequence_children (nsXs : String) (xsMap : StrMap) (methods : List QxgMethod) :
    Nat → List XNode → Except GenError (List SeqElem)
  | _, [] => .ok []
  | 0, _ :: _ => .error .recursionError
  | fuel + 1, child :: rest => do
    let nstag := ns_replace (XNode.tag child)
    let occ ← read_occurs child
    let contrib ←
      (if nstag = "xs:sequence" then
        if ¬(occ.1 = 1 ∧ occ.2 = 1) then
          .error (.exc "A xs:sequence with not exactly 1 occurrence within a xs:sequence is not supported. Make the inner xs:sequence a xs:group")
        else
          (read_sequence_content nsXs xsMap methods fuel child).map SequenceContentDef.elements
      else if nstag = "xs:choice" then
        (read_choice_content nsXs xsMap methods fuel child true).map
          (fun c => [SeqElem.mk occ.1 occ.2 (.choiceC c)])
      else if nstag = "xs:all" then
        .error (.exc "An xs:all within a xs:sequence is not supported. Make the inner xs:all a xs:group")
      else if nstag = "xs:element" ∨ nstag = "xs:group" then
        if nstag = "xs:group" ∧ occ.1 ≠ occ.2 then
          .error (.exc "xs:group elements can only appear with a fixed amount within a sequence (i.e. min == max)")
        else
          (read_type_content nsXs xsMap methods child (occ.1 == 1 && occ.2 == 1) false).map
            (fun tc => [SeqElem.mk occ.1 occ.2 (.typeC tc)])
      else .error (.exc ("Unsupported element " ++ nstag ++ " within a xs:sequence")))
    let tailEs ← read_sequence_children nsXs xsMap methods fuel rest
    .ok (contrib ++ tailEs)
end

/-- The occurrence wrapping at the end of `read_single_content`: any content
that is not already a `SequenceContentDef` is placed in a synthetic
sequence with one slot, whose bounds come from the probed node when the
branch allowed a count annotation and stay `(1,1)` otherwise; `inherit`
together with bounds other than `(1,1)` raises. -/
def wrapWithCount (content : ContentDef) (sub : XNode) (allow_count : Bool) :
    Except GenError (Option ContentDef) := do
  let occ ← (if allow_count then read_occurs sub else .ok ((1 : Int), (1 : Int)))
  if (occ.1 ≠ 1 ∨ occ.2 ≠ 1) ∧ ContentDef.is_inherited content then
    .error (.exc ("Found qxg:inherit on " ++ ns_replace (XNode.tag sub)
      ++ " - but it is not allowed in combination with occurs"))
  else
    .ok (some (.seqC (.mk [SeqElem.mk occ.1 occ.2 content])))

/-- `read_single_content`: probe for sequence, choice, all, element, group
in that order; parse with the first probe that finds a child. -/
def read_single_content (nsXs : String) (xsMap : StrMap) (methods : List QxgMethod)
    (fuel : Nat) (node : XNode) : Except GenError (Option ContentDef) :=
  match findChild node (nsTag nsXs "sequence") with
  | some sub => (read_sequence_content nsXs xsMap methods fuel sub).map (fun s => some (.seqC s))
  | none =>
  match findChild node (nsTag nsXs "choice") with
  | some sub => do
    let c ← read_choice_content nsXs xsMap methods fuel sub false
    wrapWithCount (.choiceC c) sub true
  | none =>
  match findChild node (nsTag nsXs "all") with
  | some sub => do
    let a ← read_all_content nsXs xsMap methods fuel sub
    wrapWithCount (.allC a) sub false
  | none =>
  match findChild node (nsTag nsXs "element") with
  | some sub => do
    let t ← read_type_content nsXs xsMap methods sub true false
    wrapWithCount (.typeC t) sub true
  | none =>
  match findChild node (nsTag nsXs "group") with
  | some sub => do
    let t ← read_type_content nsXs xsMap methods sub true false
    wrapWithCount (.typeC t) sub true
  | none => .ok none

/-- `read_attribs`: the attribute members and attribute-group references of
a node. -/
def read_attribs (nsXs : String) (xsMap : StrMap) (node : XNode) :
    Except GenError (List MemberDef × List TypeContentDef) := do
  let members ← (findAll node (nsTag nsXs "attribute")).mapM (fun attrib => do
    let xt ← XNode.attrE attrib "type"
    let ct ← read_qxg nsXs xsMap attrib "type" xt true
    let nm ← XNode.attrE attrib "name"
    let mem ← read_qxg nsXs xsMap attrib "member" nm false
    let dflt := XNode.attr? attrib "default"
    let req := pyLower (match XNode.attr? attrib "use" with
      | some u => u
      | none => "optional") = "required"
    .ok ({ name := nm, member := mem, xmlType := xt, cppType := ct,
           required := req, default := dflt } : MemberDef))
  let member_groups ← (findAll node (nsTag nsXs "attributeGroup")).mapM (fun attrib => do
    let inherit_mem ← read_qxg nsXs xsMap attrib "inherit" "" false
    let inh := if inherit_mem ≠ "" then pyLower inherit_mem = "true" else false
    let mem ← read_qxg nsXs xsMap attrib "member" "" false
    if mem = "" ∧ ¬inh then
      .error (.exc "A xs:attributeGroup must have an explicitly set qxg:member or qxg:inherit set to true")
    else do
      let rf ← XNode.attrE attrib "ref"
      .ok ({ is_group := true, member := mem, type_key := rf, inherit := inh } : TypeContentDef))
  .ok (members, member_groups)

/-- The record variant chosen by `read_type` together with the node its
content is read from. -/
inductive ReadTypeKind where
  | simpleK (contentXmlType : String)
  | complexK (baseType : String)
  | mixedK

/-- The shared tail of `read_type`: name, declare flag, content member for
simple and mixed records, attributes, and (for complex records) the single
content. -/
def read_type_finish (nsXs : String) (xsMap : StrMap) (methods : List QxgMethod)
    (node content_node : XNode) (kind : ReadTypeKind) : Except GenError TypeDef := do
  let nm ← XNode.attrE node "name"
  let decl ← (read_qxg nsXs xsMap node "declare" "false" false).map
    (fun v => pyLower v == "true")
  let contentPart ←
    (match kind with
    | .simpleK cxt => do
      let ccpp ← read_qxg nsXs xsMap content_node "type" cxt true
      let cmDefault ← lowerFirstE nm
      let cm ← read_qxg nsXs xsMap content_node "member" cmDefault false
      .ok (some (cm, ccpp))
    | .mixedK => do
      let ccpp ← read_qxg nsXs xsMap content_node "type" "xs:string" true
      let cmDefault ← lowerFirstE nm
      let cm ← read_qxg nsXs xsMap content_node "member" cmDefault false
      .ok (some (cm, ccpp))
    | .complexK _ => .ok none)
  let attrs ← read_attribs nsXs xsMap content_node
  let b : TypeDefBase :=
    { name := nm, members := attrs.1, member_groups := attrs.2, declare := decl }
  match kind, contentPart with
  | .simpleK cxt, some (cm, ccpp) => .ok (.simpleT b cm cxt ccpp)
  | .complexK bt, _ => do
    let content ← read_single_content nsXs xsMap methods genFuel content_node
    .ok (.complexT b bt content)
  | .mixedK, some (cm, ccpp) => do
    let content ← read_single_content nsXs xsMap methods genFuel content_node
    .ok (.mixedT b "" content cm ccpp)
  | _, _ => .error (.exc "UNREACHABLE")

/-- `read_type`: dispatch on `xs:simpleContent` and `xs:complexContent`
(requiring an `xs:extension` child), else build a plain complex or mixed
record from the node itself. -/
def read_type (nsXs : String) (xsMap : StrMap) (methods : List QxgMethod)
    (node : XNode) : Except GenError TypeDef := do
  let mixed := match XNode.attr? node "mixed" with
    | some v => pyLower v == "true"
    | none => false
  match findChild node (nsTag nsXs "simpleContent") with
  | some sc =>
    (match findChild sc (nsTag nsXs "extension") with
    | none => .error (.exc "Only xs:simpleContent elements with an xs:extension as child are allowed")
    | some content_node => do
      let cxt ← XNode.attrE content_node "base"
      read_type_finish nsXs xsMap methods node content_node (.simpleK cxt))
  | none =>
  match findChild node (nsTag nsXs "complexContent") with
  | some cc =>
    (match findChild cc (nsTag nsXs "extension") with
    | none => .error (.exc "Only xs:complexContent elements with an xs:extension as child are allowed")
    | some content_node =>
      if mixed then
        if (XNode.attr? content_node "base").isSome then
          .error (.exc "xs:complexType definition that have a xs:base and are xs:mixed are not supported")
        else read_type_finish nsXs xsMap methods node content_node .mixedK
      else do
        let bt ← XNode.attrE content_node "base"
        read_type_finish nsXs xsMap methods node content_node (.complexK bt))
  | none =>
    read_type_finish nsXs xsMap methods node node
      (if mixed then .mixedK else .complexK "")

/-- `read_group`. -/
def read_group (nsXs : String) (xsMap : StrMap) (methods : List QxgMethod)
    (node : XNode) : Except GenError TypeDef := do
  let nm ← XNode.attrE node "name"
  let content ← read_single_content nsXs xsMap methods genFuel node
  .ok (.groupT { name := nm } content)

/-- `read_attr_group`. -/
def read_attr_group (nsXs : String) (xsMap : StrMap) (node : XNode) :
    Except GenError TypeDef := do
  let nm ← XNode.attrE node "name"
  let attrs ← read_attribs nsXs xsMap node
  .ok (.attrGroupT { name := nm, members := attrs.1, member_groups := attrs.2 })

/-- Python `s.split(" ")` (single-space separator, empties kept). -/
def pySplitChar (sep : Char) (s : String) : List String :=
  (s.data.foldr (fun c acc =>
    if c = sep then [] :: acc
    else match acc with
      | [] => [[c]]
      | g :: gs => (c :: g) :: gs) ([] :: [])).map (fun l => String.mk l)

/-- `read_simple_list_type`. -/
def read_simple_list_type (nsXs : String) (xsMap : StrMap) (node : XNode) :
    Except GenError BasicTypeDef := do
  let xt ← XNode.attrE node "itemType"
  let ct ← read_qxg nsXs xsMap node "type" xt true
  .ok (.listB "" xt ct)

/-- `read_simple_union_type` (each member type goes straight through
`xs_type_map`, `KeyError` on a miss). -/
def read_simple_union_type (xsMap : StrMap) (node : XNode) :
    Except GenError BasicTypeDef := do
  let mts ← XNode.attrE node "memberTypes"
  let xtl := pySplitChar ' ' mts
  let ctl ← xtl.mapM (fun t => dictGetE xsMap t)
  .ok (.unionB "" xtl ctl)

/-- `read_simple_enum_type`: with at least one `xs:enumeration` child an
enum is built; with none, a plain alias of the restriction base. -/
def read_simple_enum_type (nsXs : String) (xsMap : StrMap) (node : XNode) :
    Except GenError BasicTypeDef := do
  let enums := findAll node (nsTag nsXs "enumeration")
  let elements ← enums.mapM (fun elem => do
    let xv ← XNode.attrE elem "value"
    let k ← read_qxg nsXs xsMap elem "key" xv false
    let v ← read_qxg nsXs xsMap elem "value" "" false
    .ok ({ xmlValue := xv, key := k, value := v } : EnumElement))
  if enums.isEmpty then do
    let xt ← XNode.attrE node "base"
    let ct ← read_qxg nsXs xsMap node "type" xt true
    .ok (.plainB "" xt ct)
  else do
    let ct ← read_qxg nsXs xsMap node "type" "" true
    .ok (.enumB "" "" ct "" elements)

/-- `read_simple_type`: probe for `xs:list`, `xs:union`, `xs:restriction`
in that order, then set the name. -/
def read_simple_type (nsXs : String) (xsMap : StrMap) (node : XNode) :
    Except GenError BasicTypeDef := do
  let bd ←
    (match findChild node (nsTag nsXs "list") with
    | some cn => read_simple_list_type nsXs xsMap cn
    | none =>
    match findChild node (nsTag nsXs "union") with
    | some cn => read_simple_union_type xsMap cn
    | none =>
    match findChild node (nsTag nsXs "restriction") with
    | some cn => read_simple_enum_type nsXs xsMap cn
    | none => .error (.exc "Unable to find xs:list, xs:union or xs:restriction in xs:simpleType"))
  let nm ← XNode.attrE node "name"
  .ok (BasicTypeDef.setName nm bd)

/-! ## Record-level writers -/

def TypeDef.write_hdr_content : TypeDef → EmitM Unit
  | .attrGroupT _ => pure ()
  | .simpleT _ cm _ ccpp => wr ("\t\t" ++ ccpp ++ " " ++ cm ++ ";\n")
  | .complexT _ _ content =>
    (match content with
    | none => pure ()
    | some c => ContentDef.write_hdr_content c)
  | .mixedT _ _ content cm ccpp => do
    (match content with
    | none => pure ()
    | some c => ContentDef.write_hdr_content c)
    wr ("\t\toptional<" ++ ccpp ++ "> " ++ cm ++ ";\n")
  | .groupT _ content =>
    (match content with
    | none => pure ()
    | some c => ContentDef.write_hdr_content c)

/-- `ComplexTypeDef.write_src_content`: base reader call, `hasNext`
initialisation, the content, the trailing unexpected-child check. -/
def complexWriteSrc (baseType : String) (content : Option ContentDef)
    (need_newline : Bool) : EmitM Unit := do
  let nn ←
    (if baseType ≠ "" then do
      if need_newline then wr ("\n")
      wr ("\tread_" ++ baseType ++ "(reader, data, true);\n")
      pure true
    else pure need_newline)
  if nn then wr ("\n")
  if baseType ≠ "" then
    wr ("\tauto hasNext = reader.isStartElement();\n")
  else
    wr ("\tauto hasNext = reader.readNextStartElement();\n")
  (match content with
  | none => pure ()
  | some c => do
    let nn2 ← ContentDef.write_src_content genFuel c false 1 "" ""
    if nn2 then wr ("\n"))
  wr ("\tif(hasNext && !keepElementOpen)\n")
  wr ("\t\tthrowChild(reader);\n")

/-- `MixedTypeDef.write_src_content`: the text-versus-structured branch. -/
def mixedWriteSrc (content : Option ContentDef) (cm ccpp : String) : EmitM Unit := do
  wr ("\tQString contentText;\n")
  wr ("\tauto canReadText = true;\n")
  wr ("\twhile(canReadText) \x7b\n")
  wr ("\t\tswitch(reader.readNext()) \x7b\n")
  wr ("\t\tcase QXmlStreamReader::Characters:\n")
  wr ("\t\tcase QXmlStreamReader::EntityReference:\n")
  wr ("\t\t\tcontentText.append(reader.text());\n")
  wr ("\t\t\tbreak;\n")
  wr ("\t\tcase QXmlStreamReader::StartElement:\n")
  wr ("\t\tcase QXmlStreamReader::EndElement:\n")
  wr ("\t\t\tcanReadText = false;\n")
  wr ("\t\t\tbreak;\n")
  wr ("\t\tcase QXmlStreamReader::ProcessingInstruction:\n")
  wr ("\t\tcase QXmlStreamReader::Comment:\n")
  wr ("\t\t\tbreak;\n")
  wr ("\t\tdefault:\n")
  wr ("\t\t\tthrowChild(reader);\n")
  wr ("\t\t\x7d\n")
  wr ("\t\x7d\n\n")
  wr ("\tif(reader.tokenType() == QXmlStreamReader::EndElement) \x7b\n")
  wr ("\t\tdata." ++ cm ++ " = QVariant\x7bstd::move(contentText)\x7d.value<" ++ ccpp ++ ">();\n")
  wr ("\t\x7d else \x7b\n")
  wr ("\t\tauto hasNext = true;\n")
  (match content with
  | none => pure ()
  | some c => do
    let nn ← ContentDef.write_src_content genFuel c false 2 "" ""
    if nn then wr ("\n"))
  wr ("\t\tif(hasNext && !keepElementOpen)\n")
  wr ("\t\t\tthrowChild(reader);\n")
  wr ("\t\x7d\n")

def TypeDef.write_src_content : TypeDef → Bool → EmitM Unit
  | .attrGroupT _, _ => pure ()
  | .simpleT _ cm _ ccpp, nn => do
    if nn then wr ("\n")
    wr ("\treadContent<" ++ ccpp ++ ">(reader, data." ++ cm ++ ");\n")
  | .complexT _ baseType content, nn => complexWriteSrc baseType content nn
  | .mixedT _ _ content cm ccpp, _nn => mixedWriteSrc content cm ccpp
  | .groupT _ content, nn => do
    (match content with
    | none => pure ()
    | some c => do
      let _ ← ContentDef.write_src_content genFuel c nn 1 "" ""
      pure ())
    wr ("\n\treturn hasNext;\n")

/-! ## Writers of the basic (simple) types -/

def BasicTypeDef.write_typedef : BasicTypeDef → EmitM Unit
  | .plainB nm _ cpp => wr ("\tusing " ++ nm ++ " = " ++ cpp ++ ";\n\n")
  | .listB nm _ cpp => wr ("\tusing " ++ nm ++ " = QList<" ++ cpp ++ ">;\n\n")
  | .unionB nm _ cppl => wr ("\tusing " ++ nm ++ " = std::tuple<" ++ joinSep ", " cppl ++ ">;\n\n")
  | .enumB nm _ _ bt els => do
    wr ("\tenum " ++ nm ++ " ")
    if bt ≠ "" then wr (": " ++ bt ++ " ")
    wr ("\x7b\n")
    els.forM (fun elem => do
      wr ("\t\t" ++ elem.key)
      if elem.value ≠ "" then wr (" = " ++ elem.value)
      wr (",\n"))
    wr ("\t\x7d;\n\n")

def unionConvLoop : Nat → List String → EmitM Unit
  | _, [] => pure ()
  | i, cpp :: rest => do
    if i ≠ 0 then wr (",\n")
    wr ("\t\tconvertData<" ++ cpp ++ ">(reader, dataList[" ++ toString i ++ "])")
    unionConvLoop (i + 1) rest

def enumConvLoop : Bool → List EnumElement → EmitM Unit
  | _, [] => pure ()
  | is_first, e :: rest => do
    wr ("\t")
    if is_first then pure () else wr ("else ")
    wr ("if(data == QStringLiteral(\"" ++ e.xmlValue ++ "\"))\n")
    wr ("\t\treturn " ++ e.key ++ ";\n")
    enumConvLoop false rest

def BasicTypeDef.write_converter : BasicTypeDef → EmitM Unit
  | .plainB _ _ _ => pure ()
  | .listB nm _ cpp => do
    wr ("\tauto dataList = data.split(XML_CODE_GEN_REGEXP\x7bQStringLiteral(\"\\\\s+\")\x7d, QString::SkipEmptyParts);\n")
    wr ("\t" ++ nm ++ " resList;\n")
    wr ("\tresList.reserve(dataList.size());\n")
    wr ("\tfor(const auto &elem : dataList)\n")
    wr ("\t\tresList.append(convertData<" ++ cpp ++ ">(reader, elem));\n")
    wr ("\treturn resList;\n")
  | .unionB _ _ cppl => do
    wr ("\tauto dataList = data.split(XML_CODE_GEN_REGEXP\x7bQStringLiteral(\"\\\\s+\")\x7d, QString::SkipEmptyParts);\n")
    wr ("\tif(dataList.size() != " ++ toString cppl.length ++ ")\n")
    wr ("\t\tthrowSizeError(reader, " ++ toString cppl.length ++ ", dataList.size(), true);\n")
    wr ("\treturn std::make_tuple(\n")
    unionConvLoop 0 cppl
    wr ("\n\t);\n")
  | .enumB _ _ _ _ els => do
    enumConvLoop true els
    wr ("\telse\n")
    wr ("\t\tthrowInvalidEnum(reader, data);\n")

/-! ## Header emission -/

/-- `write_hdr_begin`. -/
def write_hdr_begin (config : QxgConfig) (hdr_path : String) : EmitM Unit := do
  let inc_guard := pyReplace (pyUpper (pyBasename hdr_path)) "." "_"
  wr ("#ifndef " ++ inc_guard ++ "\n")
  wr ("#define " ++ inc_guard ++ "\n\n")
  if config.stdcompat then do
    wr ("#include \"optional.hpp\"\n")
    wr ("#include \"variant.hpp\"\n")
  else do
    wr ("#include <optional>\n")
    wr ("#include <variant>\n")
  wr ("#include <tuple>\n")
  wr ("#include <exception>\n\n")
  wr ("#include <QtCore/QString>\n")
  wr ("#include <QtCore/QList>\n")
  wr ("#include <QtCore/QFileDevice>\n")
  wr ("#include <QtCore/QXmlStreamReader>\n")
  wr ("#include <QtCore/QVariant>\n")
  config.includes.forM (fun inc =>
    if inc.localFlag then
      wr ("#include \"" ++ fmtOpt inc.includeStr ++ "\"\n")
    else
      wr ("#include <" ++ fmtOpt inc.includeStr ++ ">\n"))
  wr ("\n")
  if config.ns ≠ "" then
    wr ("namespace " ++ config.ns ++ " \x7b\n\n")
  wr ("class " ++ (if config.prefixStr ≠ "" then config.prefixStr ++ " " ++ config.className
    else config.className) ++ "\n")
  wr ("\x7b\n")
  wr ("\tQ_DISABLE_COPY(" ++ config.className ++ ")\n")
  wr ("public:\n")
  if config.stdcompat then do
    wr ("\ttemplate <typename... TArgs>\n")
    wr ("\tusing optional = nonstd::optional<TArgs...>;\n")
    wr ("\ttemplate <typename... TArgs>\n")
    wr ("\tusing variant = nonstd::variant<TArgs...>;\n")
    wr ("\ttemplate <typename TGet, typename... TArgs>\n")
    wr ("\tstatic inline Q_DECL_CONSTEXPR auto get(TArgs&&... args) -> decltype(nonstd::get<TGet>(std::forward<TArgs>(args)...)) \x7b\n")
    wr ("\t\treturn nonstd::get<TGet>(std::forward<TArgs>(args)...);\n")
    wr ("\t\x7d\n\n")
  else do
    wr ("\ttemplate <typename... TArgs>\n")
    wr ("\tusing optional = std::optional<TArgs...>;\n")
    wr ("\ttemplate <typename... TArgs>\n")
    wr ("\tusing variant = std::variant<TArgs...>;\n")
    wr ("\ttemplate <typename TGet, typename... TArgs>\n")
    wr ("\tstatic inline Q_DECL_CONSTEXPR auto get(TArgs&&... args) -> decltype(std::get<TGet>(std::forward<TArgs>(args)...)) \x7b\n")
    wr ("\t\treturn std::get<TGet>(std::forward<TArgs>(args)...);\n")
    wr ("\t\x7d\n\n")
  wr ("\tclass Exception : public std::exception\n")
  wr ("\t\x7b\n")
  wr ("\tpublic:\n")
  wr ("\t\tException();\n\n")
  wr ("\t\tQString qWhat() const;\n")
  wr ("\t\tconst char *what() const noexcept final;\n\n")
  wr ("\tprotected:\n")
  wr ("\t\tvirtual QString createQWhat() const = 0;\n\n")
  wr ("\t\tmutable QByteArray _qWhat;\n")
  wr ("\t\x7d;\n\n")
  wr ("\tclass FileException : public Exception\n")
  wr ("\t\x7b\n")
  wr ("\tpublic:\n")
  wr ("\t\tFileException(QFileDevice &device);\n\n")
  wr ("\t\tQString filePath() const;\n")
  wr ("\t\tQString errorMessage() const;\n\n")
  wr ("\tprotected:\n")
  wr ("\t\tQString createQWhat() const override;\n\n")
  wr ("\t\tconst QString _path;\n")
  wr ("\t\tconst QString _error;\n")
  wr ("\t\x7d;\n\n")
  wr ("\tclass XmlException : public Exception\n")
  wr ("\t\x7b\n")
  wr ("\tpublic:\n")
  wr ("\t\tXmlException(QXmlStreamReader &reader, const QString &customError = \x7b\x7d);\n")
  wr ("\t\tXmlException(QString path, qint64 line, qint64 column, QString error);\n\n")
  wr ("\t\tQString filePath() const;\n")
  wr ("\t\tqint64 line() const;\n")
  wr ("\t\tqint64 column() const;\n")
  wr ("\t\tQString errorMessage() const;\n\n")
  wr ("\tprotected:\n")
  wr ("\t\tQString createQWhat() const override;\n\n")
  wr ("\t\tconst QString _path;\n")
  wr ("\t\tconst qint64 _line;\n")
  wr ("\t\tconst qint64 _column;\n")
  wr ("\t\tconst QString _error;\n")
  wr ("\t\x7d;\n\n")
  wr ("\t" ++ config.className ++ "();\n")
  wr ("\tvirtual ~" ++ config.className ++ "();\n\n")

/-- `write_hdr__simple_types` (double underscore as in the source). -/
def write_hdr__simple_types (type_defs : List BasicTypeDef) : EmitM Unit :=
  type_defs.forM BasicTypeDef.write_typedef

/-- `write_hdr_types`: forward declarations, then one struct per record
with its base list, attribute fields, attribute-group fields and content
fields. -/
def write_hdr_types (config : QxgConfig) (type_defs : List TypeDef) : EmitM Unit := do
  if config.visibility = Visibility.Private then wr ("protected:\n")
  let has_predefs ← type_defs.foldlM (fun acc type_def => do
    if (TypeDef.base type_def).declare then do
      wr ("\tstruct " ++ TypeDef.name type_def ++ ";\n")
      pure true
    else pure acc) false
  if has_predefs then wr ("\n")
  type_defs.forM (fun type_def => do
    wr ("\tstruct " ++ TypeDef.name type_def)
    let inh := TypeDef.inherits type_def
    if inh.length > 0 then
      wr (" : public " ++ joinSep ", public " inh)
    wr ("\n\t\x7b\n")
    (TypeDef.base type_def).members.forM (fun member =>
      if ¬member.required ∧ member.default = none then
        wr ("\t\toptional<" ++ member.cppType ++ "> " ++ member.member ++ ";\n")
      else
        wr ("\t\t" ++ member.cppType ++ " " ++ member.member ++ ";\n"))
    (TypeDef.base type_def).member_groups.forM (fun member =>
      if ¬member.inherit then
        wr ("\t\t" ++ member.type_key ++ " " ++ member.member ++ ";\n")
      else pure ())
    TypeDef.write_hdr_content type_def
    wr ("\t\x7d;\n\n"))

/-- `write_hdr_methods`: the public `readDocument` pair, the visibility
transition, the user-method prototypes, the per-record reader prototypes. -/
def write_hdr_methods (config : QxgConfig) (methods : List QxgMethod)
    (type_defs : List TypeDef) (root_elements : List TypeContentDef) : EmitM Unit := do
  let type_args :=
    if root_elements.length = 1 then
      TypeContentDef.generate_type (root_elements.headD {})
    else "variant<" ++ joinSep ", " (root_elements.map TypeContentDef.generate_type) ++ ">"
  wr ("\tvirtual " ++ type_args ++ " readDocument(QIODevice *device);\n")
  wr ("\tvirtual " ++ type_args ++ " readDocument(const QString &path);\n\n")
  if config.visibility = Visibility.Protected then wr ("protected:\n")
  methods.forM (fun method => do
    if method.as_group then wr ("\tvirtual bool ")
    else wr ("\tvirtual void ")
    wr (method.name ++ "(QXmlStreamReader &reader, " ++ method.type_key ++ " &data")
    if method.as_group then wr (", bool hasNext")
    method.params.forM (fun param => do
      wr (", " ++ param.type_key ++ " " ++ param.name)
      if param.default ≠ some "" then wr (" = " ++ fmtOpt param.default))
    wr (") = 0;\n"))
  if methods.length > 0 then wr ("\n")
  type_defs.forM (fun type_def =>
    if TypeDef.isGroup type_def then
      wr ("\tvirtual bool read_" ++ TypeDef.name type_def ++ "(QXmlStreamReader &reader, "
        ++ TypeDef.name type_def ++ " &data, bool hasNext);\n")
    else if TypeDef.isComplex type_def then
      wr ("\tvirtual void read_" ++ TypeDef.name type_def ++ "(QXmlStreamReader &reader, "
        ++ TypeDef.name type_def ++ " &data, bool keepElementOpen = false);\n")
    else
      wr ("\tvirtual void read_" ++ TypeDef.name type_def ++ "(QXmlStreamReader &reader, "
        ++ TypeDef.name type_def ++ " &data);\n"))

/-- `write_hdr_end`: helper prototypes, generic template bodies and the
converter specialisation prototypes. -/
def write_hdr_end (config : QxgConfig) (simple_types : List BasicTypeDef) : EmitM Unit := do
  wr ("\n\ttemplate <typename T>\n")
  wr ("\tT convertData(QXmlStreamReader &reader, const QString &data) const;\n\n")
  wr ("\ttemplate <typename T>\n")
  wr ("\toptional<T> readOptionalAttrib(QXmlStreamReader &reader, const QString &key) const;\n")
  wr ("\ttemplate <typename T>\n")
  wr ("\tT readOptionalAttrib(QXmlStreamReader &reader, const QString &key, const QString &defaultValue) const;\n")
  wr ("\ttemplate <typename T>\n")
  wr ("\tT readRequiredAttrib(QXmlStreamReader &reader, const QString &key) const;\n\n")
  wr ("\ttemplate <typename T>\n")
  wr ("\tvoid readContent(QXmlStreamReader &reader, T &data) const;\n\n")
  wr ("\tvoid checkError(QXmlStreamReader &reader) const;\n")
  wr ("\tQ_NORETURN void throwChild(QXmlStreamReader &reader) const;\n")
  wr ("\tQ_NORETURN void throwNoChild(QXmlStreamReader &reader) const;\n")
  wr ("\tQ_NORETURN void throwInvalidSimple(QXmlStreamReader &reader) const;\n")
  wr ("\tQ_NORETURN void throwSizeError(QXmlStreamReader &reader, int minValue, int currentValue, bool exactSize = false) const;\n")
  wr ("\tQ_NORETURN void throwInvalidEnum(QXmlStreamReader &reader, const QString &text) const;\n")
  wr ("\x7d;\n\n")
  wr ("template <typename T>\n")
  wr ("T " ++ config.className ++ "::convertData(QXmlStreamReader &reader, const QString &data) const\n")
  wr ("\x7b\n")
  wr ("\tQ_UNUSED(reader)\n")
  wr ("\treturn QVariant\x7bdata\x7d.template value<T>();\n")
  wr ("\x7d\n\n")
  wr ("template <typename T>\n")
  wr (config.className ++ "::optional<T> " ++ config.className
    ++ "::readOptionalAttrib(QXmlStreamReader &reader, const QString &key) const\n")
  wr ("\x7b\n")
  wr ("\tif(reader.attributes().hasAttribute(key))\n")
  wr ("\t\treturn convertData<T>(reader, reader.attributes().value(key).toString());\n")
  wr ("\telse\n")
  wr ("\t\treturn optional<T>\x7b\x7d;\n")
  wr ("\x7d\n\n")
  wr ("template <typename T>\n")
  wr ("T " ++ config.className
    ++ "::readOptionalAttrib(QXmlStreamReader &reader, const QString &key, const QString &defaultValue) const\n")
  wr ("\x7b\n")
  wr ("\tif(reader.attributes().hasAttribute(key))\n")
  wr ("\t\treturn convertData<T>(reader, reader.attributes().value(key).toString());\n")
  wr ("\telse\n")
  wr ("\t\treturn convertData<T>(reader, defaultValue);\n")
  wr ("\x7d\n\n")
  wr ("template <typename T>\n")
  wr ("T " ++ config.className ++ "::readRequiredAttrib(QXmlStreamReader &reader, const QString &key) const\n")
  wr ("\x7b\n")
  wr ("\tif(reader.attributes().hasAttribute(key))\n")
  wr ("\t\treturn convertData<T>(reader, reader.attributes().value(key).toString());\n")
  wr ("\telse\n")
  wr ("\t\tthrow XmlException\x7breader, QStringLiteral(\"Required attribute \\\"%1\\\" but was not set\").arg(key)\x7d;\n")
  wr ("\x7d\n\n")
  wr ("template <typename T>\n")
  wr ("void " ++ config.className ++ "::readContent(QXmlStreamReader &reader, T &data) const\n")
  wr ("\x7b\n")
  wr ("\tauto content = reader.readElementText(QXmlStreamReader::ErrorOnUnexpectedElement);\n")
  wr ("\tcheckError(reader);\n")
  wr ("\tdata = convertData<T>(reader, content);\n")
  wr ("\x7d\n\n")
  simple_types.forM (fun type_def => do
    let type_name := config.className ++ "::" ++ BasicTypeDef.name type_def
    wr ("template <>\n")
    wr (type_name ++ " " ++ config.className ++ "::convertData<" ++ type_name
      ++ ">(QXmlStreamReader &reader, const QString &data) const;\n\n"))
  if config.ns ≠ "" then
    wr ("\x7d\n\n")
  wr ("#endif\n")

/-! ## Source emission -/

/-- The module-level XSLT constant stripping the annotation namespace. -/
def xslt_qxg_remove_query : String :=
  "\n<xsl:stylesheet version=\"2.0\" xmlns:xsl=\"http://www.w3.org/1999/XSL/Transform\">\n\t<xsl:template match=\"*[namespace-uri()=\x27https://skycoder42.de/xml/schemas/QXmlCodeGen\x27]\" priority=\"1\"/>\n\t<xsl:template match=\"@*[namespace-uri()=\x27https://skycoder42.de/xml/schemas/QXmlCodeGen\x27]\" priority=\"1\"/>\n\t<xsl:template match=\"@* | node()\">\n\t\t<xsl:copy>\n\t\t\t<xsl:apply-templates select=\"@* | node()\" />\n\t\t</xsl:copy>\n\t</xsl:template>\n</xsl:stylesheet>\n"

/-- `write_src_begin`. -/
def write_src_begin (config : QxgConfig) (hdr_path : String) : EmitM Unit := do
  wr ("#include \"" ++ pyBasename hdr_path ++ "\"\n")
  wr ("#include <QtCore/QFile>\n")
  wr ("#include <QtCore/QSet>\n")
  wr ("#if QT_CONFIG(regularexpression) == 1\n")
  wr ("#include <QtCore/QRegularExpression>\n")
  wr ("#define XML_CODE_GEN_REGEXP QRegularExpression\n")
  wr ("#else\n")
  wr ("#include <QtCore/QRegExp>\n")
  wr ("#define XML_CODE_GEN_REGEXP QRegExp\n")
  wr ("#endif\n")
  if config.schemaUrl ≠ "" then do
    wr ("#ifdef QT_XMLPATTERNS_LIB\n")
    wr ("#include <QtCore/QDebug>\n")
    wr ("#include <QtCore/QBuffer>\n")
    wr ("#include <QtXmlPatterns/QXmlSchema>\n")
    wr ("#include <QtXmlPatterns/QXmlSchemaValidator>\n")
    wr ("#include <QtXmlPatterns/QXmlQuery>\n")
    wr ("#include <QtXmlPatterns/QAbstractMessageHandler>\n")
    wr ("#endif\n")
  if config.ns ≠ "" then
    wr ("using namespace " ++ config.ns ++ ";\n")
  if config.schemaUrl ≠ "" then do
    wr ("\n#ifdef QT_XMLPATTERNS_LIB\n")
    wr ("namespace \x7b\n\n")
    wr ("class ExceptionMessageHandler : public QAbstractMessageHandler\n")
    wr ("\x7b\n")
    wr ("public:\n")
    wr ("\texplicit inline ExceptionMessageHandler(QObject *parent = nullptr) :\n")
    wr ("\t\tQAbstractMessageHandler\x7bparent\x7d\n")
    wr ("\t\x7b\x7d\n\n")
    wr ("protected:\n")
    wr ("\tvoid handleMessage(QtMsgType type, const QString &description, const QUrl &identifier, const QSourceLocation &sourceLocation) override\n")
    wr ("\t\x7b\n")
    wr ("\t\tQ_UNUSED(identifier)\n")
    wr ("\t\tauto msg = description;\n")
    wr ("\t\tmsg.remove(XML_CODE_GEN_REGEXP\x7bQStringLiteral(\"<[^>]*>\")\x7d);\n")
    wr ("\t\t" ++ config.className ++ "::XmlException exception\x7bsourceLocation.uri().isLocalFile() ? sourceLocation.uri().toLocalFile() : sourceLocation.uri().toString(), sourceLocation.line(), sourceLocation.column(), msg\x7d;\n")
    wr ("\t\tswitch(type) \x7b\n")
    wr ("\t\tcase QtDebugMsg:\n")
    wr ("\t\t\tqDebug() << exception.what();\n")
    wr ("\t\t\tbreak;\n")
    wr ("\t\tcase QtInfoMsg:\n")
    wr ("\t\t\tqInfo() << exception.what();\n")
    wr ("\t\t\tbreak;\n")
    wr ("\t\tcase QtWarningMsg:\n")
    wr ("\t\t\tqWarning() << exception.what();\n")
    wr ("\t\t\tbreak;\n")
    wr ("\t\tdefault:\n")
    wr ("\t\t\tthrow exception;\n")
    wr ("\t\t\x7d\n")
    wr ("\t\x7d\n")
    wr ("\x7d;\n\n")
    wr ("\x7d\n")
    wr ("#endif\n")
  wr ("\n" ++ config.className ++ "::" ++ config.className ++ "() = default;\n\n")
  wr (config.className ++ "::~" ++ config.className ++ "() = default;\n\n")

/-- The root-element alternation of `readDocument(QIODevice*)`. -/
def srcRootLoop : Bool → List TypeContentDef → EmitM Unit
  | _, [] => pure ()
  | is_first, root :: rest => do
    if is_first then wr ("\t") else wr (" else ")
    wr ("if(reader.name() == QStringLiteral(\"" ++ root.name ++ "\")) \x7b\n")
    wr ("\t\t" ++ TypeContentDef.generate_type root ++ " data;\n")
    let ps ← liftE (TypeContentDef.read_method_params root)
    wr ("\t\t" ++ TypeContentDef.read_method root ++ "(reader, data" ++ ps ++ ");\n")
    wr ("\t\treturn data;\n")
    wr ("\t\x7d")
    srcRootLoop false rest

/-- `write_src_root`: the two `readDocument` bodies. -/
def write_src_root (config : QxgConfig) (root_elements : List TypeContentDef) : EmitM Unit := do
  let type_args :=
    if root_elements.length = 1 then
      TypeContentDef.generate_type (root_elements.headD {})
    else
      "variant<" ++ config.className ++ "::"
        ++ joinSep (", " ++ config.className ++ "::") (root_elements.map TypeContentDef.generate_type)
        ++ ">"
  wr (config.className ++ "::" ++ type_args ++ " " ++ config.className ++ "::readDocument(QIODevice *device)\n")
  wr ("\x7b\n")
  wr ("\tQ_ASSERT_X(device && device->isReadable(), Q_FUNC_INFO, \"Passed device must be open and readable\");\n")
  wr ("\tQXmlStreamReader reader\x7bdevice\x7d;\n")
  wr ("\tif(!reader.readNextStartElement())\n")
  wr ("\t\tthrow XmlException\x7breader\x7d;\n\n")
  srcRootLoop true root_elements
  wr (" else\n")
  wr ("\t\tthrowChild(reader);\n")
  wr ("\x7d\n\n")
  wr (config.className ++ "::" ++ type_args ++ " " ++ config.className ++ "::readDocument(const QString &path)\n")
  wr ("\x7b\n")
  if config.schemaUrl ≠ "" then do
    wr ("#ifdef QT_XMLPATTERNS_LIB\n")
    wr ("\tQUrl schemaUrl\x7bQStringLiteral(\"" ++ config.schemaUrl ++ "\")\x7d;\n")
    wr ("\tExceptionMessageHandler errorHandler;\n")
    wr ("\tQBuffer xmlBuffer;\n")
    wr ("\txmlBuffer.open(QIODevice::ReadWrite);\n\n")
    wr ("\tQXmlQuery query(QXmlQuery::XSLT20);\n")
    wr ("\tquery.setMessageHandler(&errorHandler);\n")
    wr ("\tquery.setFocus(schemaUrl);\n")
    wr ("\tquery.setQuery(QStringLiteral(R\"___(" ++ xslt_qxg_remove_query ++ ")___\"));\n")
    wr ("\tauto ok = query.evaluateTo(&xmlBuffer);\n")
    wr ("\tQ_ASSERT(ok);\n\n")
    wr ("\tQXmlSchema schema;\n")
    wr ("\tschema.setMessageHandler(&errorHandler);\n")
    wr ("\txmlBuffer.seek(0);\n")
    wr ("\tok = schema.load(&xmlBuffer, schemaUrl);\n")
    wr ("\tQ_ASSERT(ok);\n\n")
    wr ("\tQXmlSchemaValidator validator;\n")
    wr ("\tvalidator.setMessageHandler(&errorHandler);\n")
    wr ("\tvalidator.setSchema(schema);\n")
    wr ("\tok = validator.validate(QUrl::fromLocalFile(path));\n")
    wr ("\tQ_ASSERT(ok);\n")
    wr ("#endif\n\n")
  wr ("\tQFile xmlFile\x7bpath\x7d;\n")
  wr ("\tif(!xmlFile.open(QIODevice::ReadOnly | QIODevice::Text))\n")
  wr ("\t\tthrow FileException\x7bxmlFile\x7d;\n")
  wr ("\treturn readDocument(&xmlFile);\n")
  wr ("\x7d\n\n")

/-- `write_src_types`: one reader body per record. -/
def write_src_types (config : QxgConfig) (type_defs : List TypeDef) : EmitM Unit :=
  type_defs.forM (fun type_def => do
    if TypeDef.isGroup type_def then
      wr ("bool " ++ config.className ++ "::read_" ++ TypeDef.name type_def
        ++ "(QXmlStreamReader &reader, " ++ TypeDef.name type_def ++ " &data, bool hasNext)\n")
    else if TypeDef.isComplex type_def then
      wr ("void " ++ config.className ++ "::read_" ++ TypeDef.name type_def
        ++ "(QXmlStreamReader &reader, " ++ TypeDef.name type_def ++ " &data, bool keepElementOpen)\n")
    else
      wr ("void " ++ config.className ++ "::read_" ++ TypeDef.name type_def
        ++ "(QXmlStreamReader &reader, " ++ TypeDef.name type_def ++ " &data)\n")
    wr ("\x7b\n")
    let need_newline := (TypeDef.base type_def).members.length > 0
    (TypeDef.base type_def).members.forM (fun member =>
      if member.required then
        wr ("\tdata." ++ member.member ++ " = readRequiredAttrib<" ++ member.cppType
          ++ ">(reader, QStringLiteral(\"" ++ member.name ++ "\"));\n")
      else do
        wr ("\tdata." ++ member.member ++ " = readOptionalAttrib<" ++ member.cppType
          ++ ">(reader, QStringLiteral(\"" ++ member.name ++ "\")")
        (match member.default with
        | some d => wr (", QStringLiteral(\"" ++ d ++ "\")")
        | none => pure ())
        wr (");\n"))
    let need_newline ←
      (if (TypeDef.base type_def).member_groups.length > 0 then do
        if need_newline then wr ("\n")
        pure true
      else pure need_newline)
    (TypeDef.base type_def).member_groups.forM (fun member =>
      if member.inherit then
        wr ("\tread_" ++ member.type_key ++ "(reader, data);\n")
      else
        wr ("\tread_" ++ member.type_key ++ "(reader, data." ++ member.member ++ ");\n"))
    TypeDef.write_src_content type_def need_newline
    wr ("\x7d\n\n"))

/-- `write_src_end`: error helpers, converter specialisations and the
exception class implementations. -/
def write_src_end (config : QxgConfig) (simple_types : List BasicTypeDef) : EmitM Unit := do
  wr ("void " ++ config.className ++ "::checkError(QXmlStreamReader &reader) const\n")
  wr ("\x7b\n")
  wr ("\tif(reader.hasError())\n")
  wr ("\t\tthrow XmlException\x7breader\x7d;\n")
  wr ("\x7d\n\n")
  wr ("void " ++ config.className ++ "::throwChild(QXmlStreamReader &reader) const\n")
  wr ("\x7b\n")
  wr ("\tthrow XmlException\x7breader, QStringLiteral(\"Unexpected child element: %1\").arg(reader.name())\x7d;\n")
  wr ("\x7d\n\n")
  wr ("void " ++ config.className ++ "::throwNoChild(QXmlStreamReader &reader) const\n")
  wr ("\x7b\n")
  wr ("\tthrow XmlException\x7breader, QStringLiteral(\"Unexpected end of element \\\"%1\\\". Expected more child elements\").arg(reader.name())\x7d;\n")
  wr ("\x7d\n\n")
  wr ("void " ++ config.className ++ "::throwInvalidSimple(QXmlStreamReader &reader) const\n")
  wr ("\x7b\n")
  wr ("\tthrow XmlException\x7breader, QStringLiteral(\"Mixed content elements with a base class cannot have the base read any content\")\x7d;\n")
  wr ("\x7d\n\n")
  wr ("void " ++ config.className ++ "::throwSizeError(QXmlStreamReader &reader, int minValue, int currentValue, bool exactSize) const\n")
  wr ("\x7b\n")
  wr ("\tthrow XmlException\x7breader, QStringLiteral(\"Expected %1 %2 child elements, but found %3\")\n")
  wr ("\t\t.arg(exactSize ? QStringLiteral(\"exactly\") : QStringLiteral(\"at least\"))\n")
  wr ("\t\t.arg(minValue)\n")
  wr ("\t\t.arg(currentValue)\n")
  wr ("\t\x7d;\n")
  wr ("\x7d\n\n")
  wr ("void " ++ config.className ++ "::throwInvalidEnum(QXmlStreamReader &reader, const QString &text) const\n")
  wr ("\x7b\n")
  wr ("\tthrow XmlException\x7breader, QStringLiteral(\"Found unexpected value \\\"%1\\\" for restricted enum\").arg(text)\x7d;\n")
  wr ("\x7d\n\n")
  simple_types.forM (fun type_def => do
    let type_name := config.className ++ "::" ++ BasicTypeDef.name type_def
    wr ("template <>\n")
    wr (type_name ++ " " ++ config.className ++ "::convertData<" ++ type_name
      ++ ">(QXmlStreamReader &reader, const QString &data) const\n")
    wr ("\x7b\n")
    BasicTypeDef.write_converter type_def
    wr ("\x7d\n\n"))
  wr ("\n\n" ++ config.className ++ "::Exception::Exception() = default;\n\n")
  wr ("QString " ++ config.className ++ "::Exception::qWhat() const\n")
  wr ("\x7b\n")
  wr ("\tif(_qWhat.isNull())\n")
  wr ("\t\t _qWhat = createQWhat().toUtf8();\n")
  wr ("\treturn QString::fromUtf8(_qWhat);\n")
  wr ("\x7d\n\n")
  wr ("const char *" ++ config.className ++ "::Exception::what() const noexcept\n")
  wr ("\x7b\n")
  wr ("\tif(_qWhat.isNull())\n")
  wr ("\t\t _qWhat = createQWhat().toUtf8();\n")
  wr ("\treturn _qWhat.constData();\n")
  wr ("\x7d\n\n\n\n")
  wr (config.className ++ "::FileException::FileException(QFileDevice &device) :\n")
  wr ("\tException\x7b\x7d,\n")
  wr ("\t_path\x7bdevice.fileName()\x7d,\n")
  wr ("\t_error\x7bdevice.errorString()\x7d\n")
  wr ("\x7b\x7d\n\n")
  wr ("QString " ++ config.className ++ "::FileException::filePath() const\n")
  wr ("\x7b\n")
  wr ("\treturn _path;\n")
  wr ("\x7d\n\n")
  wr ("QString " ++ config.className ++ "::FileException::errorMessage() const\n")
  wr ("\x7b\n")
  wr ("\treturn _error;\n")
  wr ("\x7d\n\n")
  wr ("QString " ++ config.className ++ "::FileException::createQWhat() const\n")
  wr ("\x7b\n")
  wr ("\treturn QStringLiteral(\"%1: %2\").arg(_path, _error);\n")
  wr ("\x7d\n\n\n\n")
  wr (config.className ++ "::XmlException::XmlException(QXmlStreamReader &reader, const QString &customError) :\n")
  wr ("\tException\x7b\x7d,\n")
  wr ("\t_path\x7bdynamic_cast<QFileDevice*>(reader.device()) ? static_cast<QFileDevice*>(reader.device())->fileName() : QStringLiteral(\"<unknown>\")\x7d,\n")
  wr ("\t_line\x7breader.lineNumber()\x7d,\n")
  wr ("\t_column\x7breader.columnNumber()\x7d,\n")
  wr ("\t_error\x7bcustomError.isNull() ? reader.errorString() : customError\x7d\n")
  wr ("\x7b\x7d\n\n")
  wr (config.className ++ "::XmlException::XmlException(QString path, qint64 line, qint64 column, QString error) :\n")
  wr ("\tException\x7b\x7d,\n")
  wr ("\t_path\x7bstd::move(path)\x7d,\n")
  wr ("\t_line\x7bstd::move(line)\x7d,\n")
  wr ("\t_column\x7bstd::move(column)\x7d,\n")
  wr ("\t_error\x7bstd::move(error)\x7d\n")
  wr ("\x7b\x7d\n\n")
  wr ("QString " ++ config.className ++ "::XmlException::filePath() const\n")
  wr ("\x7b\n")
  wr ("\treturn _path;\n")
  wr ("\x7d\n\n")
  wr ("qint64 " ++ config.className ++ "::XmlException::line() const\n")
  wr ("\x7b\n")
  wr ("\treturn _line;\n")
  wr ("\x7d\n\n")
  wr ("qint64 " ++ config.className ++ "::XmlException::column() const\n")
  wr ("\x7b\n")
  wr ("\treturn _column;\n")
  wr ("\x7d\n\n")
  wr ("QString " ++ config.className ++ "::XmlException::errorMessage() const\n")
  wr ("\x7b\n")
  wr ("\treturn _error;\n")
  wr ("\x7d\n\n")
  wr ("QString " ++ config.className ++ "::XmlException::createQWhat() const\n")
  wr ("\x7b\n")
  wr ("\treturn QStringLiteral(\"%1:%2:%3: %4\").arg(_path).arg(_line).arg(_column).arg(_error);\n")
  wr ("\x7d\n")

/-! ## The driver (`xmlcodegen`)

The class-level state of `XmlCodeGenerator` that survives a run: the xs
entry of `ns_map` and the `xs_type_map` dictionary (both mutated in
place on the class).  Instance state (`methods`, `config`) is fresh in
every run because the command line constructs a new generator object. -/

structure SharedState where
  nsXs : Option String := none
  xsTypeMap : StrMap := xs_type_map_init

/-- The two output files; `none` means the path was never opened,
`some chunks` the write calls flushed to it (also on an error run, since
the `with` block closes the file when the exception unwinds). -/
structure FileState where
  hdr : Option (List String) := none
  src : Option (List String) := none

/-- `root.tag[1:root.tag.index(closing brace)]`. -/
def getXsUri (root : XNode) : Except GenError String := do
  let idx ← pyIndexOf (XNode.tag root) '\x7d'
  .ok (String.mk (((XNode.tag root).data.drop 1).take (idx - 1)))

/-- The configuration step of `xmlcodegen`: an absent `qxg:config` child
falls back to `QxgConfig(xsd_path)`, a present one is read by
`read_config` (which starts from `QxgConfig()` without the path). -/
def configPhase (xsd_path : String) (root : XNode) : Except GenError QxgConfig :=
  match findChild root (qxgKey "config") with
  | none => .ok (QxgConfig.init (some xsd_path))
  | some conf_node => read_config conf_node

/-- The top-level dispatch loop of `xmlcodegen`; the threaded `StrMap` is
the class-level `xs_type_map`, kept also when a child raises, because the
insertion for an earlier `xs:simpleType` has already mutated the shared
dictionary. -/
def buildLoop (nsXs : String) :
    List XNode → List TypeDef → List BasicTypeDef → List TypeContentDef →
    List QxgMethod → StrMap →
    (Except GenError (List TypeDef × List BasicTypeDef × List TypeContentDef × List QxgMethod)) × StrMap
  | [], tds, sts, res, ms, xsMap => (.ok (tds, sts, res, ms), xsMap)
  | child :: rest, tds, sts, res, ms, xsMap =>
    let xtag := ns_replace (XNode.tag child)
    if xtag = "xs:complexType" then
      match read_type nsXs xsMap ms child with
      | .error e => (.error e, xsMap)
      | .ok td => buildLoop nsXs rest (tds ++ [td]) sts res ms xsMap
    else if xtag = "xs:element" then
      match read_type_content nsXs xsMap ms child false false with
      | .error e => (.error e, xsMap)
      | .ok tc => buildLoop nsXs rest tds sts (res ++ [tc]) ms xsMap
    else if xtag = "xs:group" then
      match read_group nsXs xsMap ms child with
      | .error e => (.error e, xsMap)
      | .ok td => buildLoop nsXs rest (tds ++ [td]) sts res ms xsMap
    else if xtag = "xs:attributeGroup" then
      match read_attr_group nsXs xsMap child with
      | .error e => (.error e, xsMap)
      | .ok td => buildLoop nsXs rest (tds ++ [td]) sts res ms xsMap
    else if xtag = "xs:simpleType" then
      match read_simple_type nsXs xsMap child with
      | .error e => (.error e, xsMap)
      | .ok st =>
        buildLoop nsXs rest tds (sts ++ [st]) res ms
          (dictSet xsMap (BasicTypeDef.name st) (BasicTypeDef.name st))
    else if xtag = "qxg:method" then
      match read_method child with
      | .error e => (.error e, xsMap)
      | .ok m => buildLoop nsXs rest tds sts res (ms ++ [m]) xsMap
    else if xtag.take 4 = "qxg:" then
      buildLoop nsXs rest tds sts res ms xsMap
    else
      (.error (.exc ("XSD-Type " ++ xtag ++ " is not supported as top level element")), xsMap)

/-- The result of the fallible first half of `xmlcodegen`. -/
structure BuildOut where
  config : QxgConfig
  type_defs : List TypeDef
  simple_types : List BasicTypeDef
  root_elements : List TypeContentDef
  methods : List QxgMethod

/-- Everything `xmlcodegen` does between knowing the xs URI and opening the
first output file; depends on the shared state only through the incoming
`xs_type_map`. -/
def buildCore (nsXs : String) (xsMap0 : StrMap) (xsd_path : String) (root : XNode) :
    Except GenError BuildOut × StrMap :=
  match configPhase xsd_path root with
  | .error e => (.error e, xsMap0)
  | .ok cfg =>
    match buildLoop nsXs (XNode.children root) [] [] [] [] xsMap0 with
    | (.error e, m2) => (.error e, m2)
    | (.ok (tds, sts, res, ms), m2) =>
      (.ok { config := cfg, type_defs := tds, simple_types := sts,
             root_elements := res, methods := ms }, m2)

/-- The fallible first half of `xmlcodegen`: parse the xs URI out of the
root tag (mutating the shared `ns_map`), read the configuration, read all
top-level definitions. -/
def buildPhase (sh : SharedState) (xsd_path : String) (root : XNode) :
    Except GenError BuildOut × SharedState :=
  match getXsUri root with
  | .error e => (.error e, sh)
  | .ok uri =>
    let (r, m2) := buildCore uri (SharedState.xsTypeMap sh) xsd_path root
    (r, { nsXs := some uri, xsTypeMap := m2 })

/-- The header emission of `xmlcodegen` (the body of the first `with`). -/
def hdrEmit (bo : BuildOut) (hdr_path : String) : EmitM Unit := do
  write_hdr_begin bo.config hdr_path
  write_hdr__simple_types bo.simple_types
  write_hdr_types bo.config bo.type_defs
  write_hdr_methods bo.config bo.methods bo.type_defs bo.root_elements
  write_hdr_end bo.config bo.simple_types

/-- The source emission of `xmlcodegen` (the body of the second `with`). -/
def srcEmit (bo : BuildOut) (hdr_path : String) : EmitM Unit := do
  write_src_begin bo.config hdr_path
  write_src_root bo.config bo.root_elements
  write_src_types bo.config bo.type_defs
  write_src_end bo.config bo.simple_types

def runEmit (m : EmitM Unit) : Except GenError Unit × List String :=
  (ExceptT.run m).run []

/-- `xmlcodegen` (meta-schema verification and XML parsing are external
I/O; the parsed document root is the input).  A build-phase error leaves
both files untouched; an emission error leaves the chunks flushed so far
in the already-opened file. -/
def xmlcodegen (sh : SharedState) (xsd_path hdr_path src_path : String) (root : XNode)
    (fs : FileState) : Except GenError Unit × SharedState × FileState :=
  match buildPhase sh xsd_path root with
  | (.error e, sh2) => (.error e, sh2, fs)
  | (.ok bo, sh2) =>
    let hr := runEmit (hdrEmit bo hdr_path)
    let fs1 : FileState := { fs with hdr := some hr.2 }
    match hr.1 with
    | .error e => (.error e, sh2, fs1)
    | .ok _ =>
      let sr := runEmit (srcEmit bo hdr_path)
      let fs2 : FileState := { fs1 with src := some sr.2 }
      match sr.1 with
      | .error e => (.error e, sh2, fs2)
      | .ok _ => (.ok (), sh2, fs2)

/-- The outcome of a run, separated from the unit payload. -/
def runError : Except GenError Unit → Option GenError
  | .ok _ => none
  | .error e => some e


/-! ## Concrete inputs used by counterexamples and witnesses -/

/-- The 2001 http form of the schema namespace, used by all examples. -/
def xsUri2001 : String := "http://www.w3.org/2001/XMLSchema"

def xsT (l : String) : String := nsTag xsUri2001 l

/-! ## Claim C1 -/

/-- Order-preserving removal of duplicates, keeping first occurrences
(fuel equal to the list length makes the recursion structural). -/
def dedupKeepFirst : Nat → List String → List String
  | _, [] => []
  | 0, l => l
  | fuel + 1, x :: xs => x :: dedupKeepFirst fuel (xs.filter (fun y => y ≠ x))

/-- The inheritance list exactly as claim C1 words it: the base type,
then the inherited attribute-group type keys, then the inherited
content-leaf type keys, in that order, with duplicates removed. -/
def inheritsClaimC1 (baseType : String) (content : Option ContentDef) (b : TypeDefBase) : List String :=
  let l := (if baseType ≠ "" then [baseType] else [])
    ++ TypeDefBase.inheritsBase b ++ contentInherits content
  dedupKeepFirst l.length l

/-- A complex type with base `B`, one inherited content leaf `C` and one
inherited attribute-group reference `A`. -/
def exC1Base : TypeDefBase :=
  { name := "T", member_groups := [{ is_group := true, inherit := true, type_key := "A" }] }

def exC1Slots : List SeqElem :=
  [.mk 1 1 (.typeC { is_group := true, inherit := true, type_key := "C" })]

def exC1 : TypeDef := .complexT exC1Base "B" (some (.seqC (.mk exC1Slots)))

/-- Claim C1, counterexample: on a complex type with base `B`, inherited
content leaf `C` and inherited attribute group `A`, the code computes the
base list B, C, A (content leaves before attribute groups, no
deduplication) and prints exactly that after `struct T`, while the claim
predicts B, A, C; the two lists differ. -/
theorem c1_counterexample :
    TypeDef.inherits exC1 = ["B", "C", "A"] ∧
    inheritsClaimC1 "B" (some (.seqC (.mk exC1Slots))) exC1Base = ["B", "A", "C"] ∧
    ((ExceptT.run (write_hdr_types {} [exC1])).run []).2.contains
      " : public B, public C, public A" = true ∧
    TypeDef.inherits exC1 ≠ inheritsClaimC1 "B" (some (.seqC (.mk exC1Slots))) exC1Base :=
  ⟨rfl, rfl, rfl, by decide⟩

def isSeqContent : ContentDef → Bool
  | .seqC _ => true
  | _ => false

/-- The inherited content-leaf type keys of a slot list, as the spec words
them: one key per slot whose element is an inheriting leaf. -/
def leafInheritKeys (slots : List SeqElem) : List String :=
  slots.filterMap (fun e => match SeqElem.element e with
    | .typeC t => if t.inherit then some t.type_key else none
    | _ => none)

theorem seqElemsInherits_eq_leafKeys :
    ∀ (slots : List SeqElem), (∀ e ∈ slots, isSeqContent (SeqElem.element e) = false) →
      seqElemsInherits slots = leafInheritKeys slots := by
  intro slots h
  induction slots with
  | nil => rfl
  | cons e rest ih =>
    cases e with
    | mk mn mx el =>
      have h1 : isSeqContent el = false := by
        have := h (SeqElem.mk mn mx el) (List.mem_cons_self _ _)
        simpa [SeqElem.element] using this
      have h2 : ∀ e ∈ rest, isSeqContent (SeqElem.element e) = false :=
        fun e he => h e (List.mem_cons_of_mem _ he)
      cases el with
      | typeC t =>
        simp [seqElemsInherits, leafInheritKeys, ContentDef.inherits, SeqElem.element, ih h2,
          leafInheritKeys]
        cases ht : t.inherit <;> simp [ht, leafInheritKeys]
      | seqC s => simp [isSeqContent] at h1
      | choiceC c =>
        simp [seqElemsInherits, leafInheritKeys, ContentDef.inherits, SeqElem.element, ih h2]
      | allC a =>
        simp [seqElemsInherits, leafInheritKeys, ContentDef.inherits, SeqElem.element, ih h2]

/-- Claim C1, amended: for a complex type whose content is a sequence of
non-sequence slots (the only shape the builder produces), `inherits()`
returns the base type (when set), then the inherited content-leaf type
keys in slot order, then the inherited attribute-group type keys, in that
order and without removing duplicates; `write_hdr_types` prints this list
verbatim after the struct name. -/
theorem c1_theorem (b : TypeDefBase) (baseType : String) (slots : List SeqElem)
    (h : ∀ e ∈ slots, isSeqContent (SeqElem.element e) = false) :
    TypeDef.inherits (.complexT b baseType (some (.seqC (.mk slots)))) =
      (if baseType ≠ "" then [baseType] else []) ++ leafInheritKeys slots
        ++ TypeDefBase.inheritsBase b := by
  simp [TypeDef.inherits, contentInherits, ContentDef.inherits, SequenceContentDef.inherits,
    seqElemsInherits_eq_leafKeys slots h]

theorem c1_witness :
    TypeDef.inherits (.complexT exC1Base "B" (some (.seqC (.mk exC1Slots)))) =
      (if "B" ≠ "" then ["B"] else []) ++ leafInheritKeys exC1Slots
        ++ TypeDefBase.inheritsBase exC1Base :=
  c1_theorem exC1Base "B" exC1Slots (by decide)

/-! ## Claim C2 -/

/-- Alternative 0, optional: element `a` of type `A`. -/
def c2LeafA : TypeContentDef := { name := "a", member := "a", type_key := "A" }

/-- Alternative 1, required: element `b` of type `B`. -/
def c2LeafB : TypeContentDef := { name := "b", member := "b", type_key := "B" }

def exC2All : AllContentDef := .mk [.mk true (.typeC c2LeafA), .mk false (.typeC c2LeafB)]

/-- Claim C2: full evaluation of `AllContentDef.write_src_content` on an
`xs:all` block with an optional alternative at index 0 and a required one
at index 1.  The emitted code declares the scratch temporary
`_element_0` and moves `_element_0` into the field, but the read call
targets the hardcoded name `_element_1` — not the temporary declared for
the alternative — so the claim (and the spec) describe the evident intent
and the code deviates at every optional index other than 1.  The required
alternative reads directly into its field and the post-loop check tests
the used-element set against the set of all required indices. -/
theorem c2_theorem :
    (ExceptT.run (allWriteSrc (AllContentDef.elements exC2All) false 1 "" "")).run [] =
      (.ok true,
       ["\t", "\x7b\n",
        "\t\t", "QSet<int> _usedElements;\n",
        "\t\t", "while(hasNext) \x7b",
        "\n",
        "\t\t\t", "A _element_0;\n",
        "\t\t\t", "if(reader.name() == QStringLiteral(\"a\")) \x7b\n",
        "\t\t\t\t", "if(_usedElements.contains(0))\n",
        "\t\t\t\t\t", "break;\n",
        "\t\t\t\t", "read_A(reader, _element_1);\n",
        "\t\t\t\t", "_usedElements.insert(0);\n",
        "\t\t\t\t", "data.a = std::move(_element_0);\n",
        "\t\t\t\t", "hasNext = reader.readNextStartElement();\n",
        "\t\t\t\t", "checkError(reader);\n",
        "\t\t\t\t", "continue;\n",
        "\t\t\t", "\x7d\n",
        "\n",
        "\t\t\t", "if(reader.name() == QStringLiteral(\"b\")) \x7b\n",
        "\t\t\t\t", "if(_usedElements.contains(1))\n",
        "\t\t\t\t\t", "break;\n",
        "\t\t\t\t", "read_B(reader, data.b);\n",
        "\t\t\t\t", "_usedElements.insert(1);\n",
        "\t\t\t\t", "hasNext = reader.readNextStartElement();\n",
        "\t\t\t\t", "checkError(reader);\n",
        "\t\t\t\t", "continue;\n",
        "\t\t\t", "\x7d\n",
        "\n",
        "\t\t\t", "break;\n",
        "\t\t", "\x7d\n",
        "\t\t", "if(!_usedElements.contains(QSet<int> \x7b1\x7d))\n",
        "\t\t\t", "throwNoChild(reader);\n",
        "\t", "\x7d\n"]) := rfl

/-! ## Claim C3 -/

/-- A schema whose build succeeds but whose source emission crashes: a
complex type holding an `xs:all` with an `xs:choice` alternative (the
choice has no `xml_name`, so the all emitter raises
`NotImplementedError`). -/
def exC3ChoiceInAll : XNode :=
  .mk (xsT "choice") [(qxgKey "member", "m")] none
    [.mk (xsT "element") [("name", "e"), ("type", "E")] none []]

def exSchemaC3 : XNode :=
  .mk (xsT "schema") [] none
    [.mk (xsT "complexType") [("name", "T")] none
      [.mk (xsT "all") [] none [exC3ChoiceInAll]]]

/-- Claim C3, counterexample: on `exSchemaC3` the run fails (with the
`NotImplementedError` raised while emitting the all block), yet both
output files have been opened and written: the header file holds the
complete header and the source file holds the chunks emitted before the
crash.  An error run therefore does not leave the output paths
unwritten. -/
theorem c3_counterexample :
    runError (xmlcodegen {} "schema.xsd" "schema.h" "schema.cpp" exSchemaC3 {}).1 =
      some .notImplemented ∧
    ((xmlcodegen {} "schema.xsd" "schema.h" "schema.cpp" exSchemaC3 {}).2.2.hdr).isSome = true ∧
    ((xmlcodegen {} "schema.xsd" "schema.h" "schema.cpp" exSchemaC3 {}).2.2.src).isSome = true :=
  ⟨rfl, rfl, rfl⟩

/-- Claim C3, amended: an error raised during config reading or
schema-model building (everything before the first `open`) leaves the
file system untouched and is propagated; only emission-phase errors can
leave partial content in an already-opened file, as the counterexample
shows. -/
theorem c3_theorem (sh : SharedState) (xsd_path hdr_path src_path : String) (root : XNode)
    (fs : FileState) (e : GenError) (sh2 : SharedState)
    (hb : buildPhase sh xsd_path root = (.error e, sh2)) :
    xmlcodegen sh xsd_path hdr_path src_path root fs = (.error e, sh2, fs) := by
  unfold xmlcodegen
  rw [hb]

/-- A schema that fails during building: a top-level `xs:all`. -/
def exC3BadTop : XNode := .mk (xsT "schema") [] none [.mk (xsT "all") [] none []]

theorem c3_witness :
    xmlcodegen {} "bad.xsd" "bad.h" "bad.cpp" exC3BadTop {} =
      (.error (.exc "XSD-Type xs:all is not supported as top level element"),
       { nsXs := some xsUri2001, xsTypeMap := xs_type_map_init }, ({} : FileState)) :=
  c3_theorem {} "bad.xsd" "bad.h" "bad.cpp" exC3BadTop {}
    (.exc "XSD-Type xs:all is not supported as top level element")
    { nsXs := some xsUri2001, xsTypeMap := xs_type_map_init } rfl

/-! ## Claims C4 and C9 -/

/-- Schema A: one top-level simple type named `Foo` (a facet-only
restriction of `xs:string`). -/
def exFooRestr : XNode := .mk (xsT "restriction") [("base", "xs:string")] none []

def exSimpleFoo : XNode := .mk (xsT "simpleType") [("name", "Foo")] none [exFooRestr]

def exSchemaA : XNode := .mk (xsT "schema") [] none [exSimpleFoo]

/-- Schema B: one complex type `T` whose sequence references the type name
`Foo` that B itself never defines. -/
def exComplexRefFoo : XNode :=
  .mk (xsT "complexType") [("name", "T")] none
    [.mk (xsT "sequence") [] none
      [.mk (xsT "element") [("name", "e"), ("type", "Foo")] none []]]

def exSchemaB : XNode := .mk (xsT "schema") [] none [exComplexRefFoo]

/-- Schema X: the same reference to `Foo` followed by the definition of
`Foo`, in one document (a forward reference). -/
def exSchemaX : XNode := .mk (xsT "schema") [] none [exComplexRefFoo, exSimpleFoo]

/-- Runs started with an equal `xs_type_map` agree on everything
observable: result, emitted files and the resulting map (the xs entry of
`ns_map` is rewritten from the document root before its first use). -/
theorem xmlcodegen_congr (sh sh2 : SharedState) (p h s : String) (root : XNode)
    (fs : FileState) (hm : SharedState.xsTypeMap sh = SharedState.xsTypeMap sh2) :
    (xmlcodegen sh p h s root fs).1 = (xmlcodegen sh2 p h s root fs).1 ∧
    SharedState.xsTypeMap (xmlcodegen sh p h s root fs).2.1 =
      SharedState.xsTypeMap (xmlcodegen sh2 p h s root fs).2.1 ∧
    (xmlcodegen sh p h s root fs).2.2 = (xmlcodegen sh2 p h s root fs).2.2 := by
  unfold xmlcodegen buildPhase
  cases hu : getXsUri root with
  | error e => simp [hm]
  | ok uri => rw [hm]; exact ⟨rfl, rfl, rfl⟩

/-- Claim C4, counterexample: the generator is not stateless between runs.
Running schema A first registers the simple type `Foo` in the class-level
`xs_type_map`; a later run on schema B then treats the reference `Foo` as
a basic type and emits a different reader call, so B's source output
differs from a fresh run on B. -/
theorem c4_counterexample :
    (xmlcodegen {} "b.xsd" "b.h" "b.cpp" exSchemaB {}).2.2.src ≠
    (xmlcodegen (xmlcodegen {} "a.xsd" "a.h" "a.cpp" exSchemaA {}).2.1
      "b.xsd" "b.h" "b.cpp" exSchemaB {}).2.2.src := by
  decide

/-- Claim C4, amended: the only state observable across runs is the
class-level `xs_type_map` (the `ns_map` xs entry is overwritten at the
start of every run before use).  Two runs on the same schema whose
initial `xs_type_map` agree produce identical results, identical output
files and identical final maps; a run on A that registers a top-level
simple type extends the shared map and can change a later run on B, as
the counterexample shows. -/
theorem c4_theorem (sh sh2 : SharedState) (p h s : String) (root : XNode)
    (fs : FileState) (hm : SharedState.xsTypeMap sh = SharedState.xsTypeMap sh2) :
    (xmlcodegen sh p h s root fs).1 = (xmlcodegen sh2 p h s root fs).1 ∧
    SharedState.xsTypeMap (xmlcodegen sh p h s root fs).2.1 =
      SharedState.xsTypeMap (xmlcodegen sh2 p h s root fs).2.1 ∧
    (xmlcodegen sh p h s root fs).2.2 = (xmlcodegen sh2 p h s root fs).2.2 :=
  xmlcodegen_congr sh sh2 p h s root fs hm

theorem c4_witness :
    (xmlcodegen {} "b.xsd" "b.h" "b.cpp" exSchemaB {}).1 =
      (xmlcodegen { nsXs := some "zzz" } "b.xsd" "b.h" "b.cpp" exSchemaB {}).1 ∧
    SharedState.xsTypeMap (xmlcodegen {} "b.xsd" "b.h" "b.cpp" exSchemaB {}).2.1 =
      SharedState.xsTypeMap (xmlcodegen { nsXs := some "zzz" } "b.xsd" "b.h" "b.cpp" exSchemaB {}).2.1 ∧
    (xmlcodegen {} "b.xsd" "b.h" "b.cpp" exSchemaB {}).2.2 =
      (xmlcodegen { nsXs := some "zzz" } "b.xsd" "b.h" "b.cpp" exSchemaB {}).2.2 :=
  c4_theorem {} { nsXs := some "zzz" } "b.xsd" "b.h" "b.cpp" exSchemaB {} rfl

/-- Claim C9, counterexample: two runs on the identical schema X in the
same process produce different source files.  X references the simple
type `Foo` before defining it; the first run resolves the reference as a
plain type, but also registers `Foo` in the shared `xs_type_map`, so the
second run resolves it as a basic type and emits a different reader
call. -/
theorem c9_counterexample :
    (xmlcodegen {} "x.xsd" "x.h" "x.cpp" exSchemaX {}).2.2.src ≠
    (xmlcodegen (xmlcodegen {} "x.xsd" "x.h" "x.cpp" exSchemaX {}).2.1
      "x.xsd" "x.h" "x.cpp" exSchemaX {}).2.2.src := by
  decide

/-- Claim C9, amended: determinism holds per shared state, not per
process: a second run on the same document reproduces the first run's
result and files whenever the first run leaves the shared `xs_type_map`
unchanged (in particular for schemas without top-level simple types);
when it extends the map, the outputs may differ, as the counterexample
shows. -/
theorem c9_theorem (sh : SharedState) (p h s : String) (root : XNode) (fs : FileState)
    (hpres : SharedState.xsTypeMap (xmlcodegen sh p h s root fs).2.1 =
      SharedState.xsTypeMap sh) :
    (xmlcodegen (xmlcodegen sh p h s root fs).2.1 p h s root fs).1 =
      (xmlcodegen sh p h s root fs).1 ∧
    (xmlcodegen (xmlcodegen sh p h s root fs).2.1 p h s root fs).2.2 =
      (xmlcodegen sh p h s root fs).2.2 := by
  have hc := xmlcodegen_congr ((xmlcodegen sh p h s root fs).2.1) sh p h s root fs hpres
  exact ⟨hc.1, hc.2.2⟩

theorem c9_witness :
    (xmlcodegen (xmlcodegen {} "b.xsd" "b.h" "b.cpp" exSchemaB {}).2.1
        "b.xsd" "b.h" "b.cpp" exSchemaB {}).1 =
      (xmlcodegen {} "b.xsd" "b.h" "b.cpp" exSchemaB {}).1 ∧
    (xmlcodegen (xmlcodegen {} "b.xsd" "b.h" "b.cpp" exSchemaB {}).2.1
        "b.xsd" "b.h" "b.cpp" exSchemaB {}).2.2 =
      (xmlcodegen {} "b.xsd" "b.h" "b.cpp" exSchemaB {}).2.2 :=
  c9_theorem {} "b.xsd" "b.h" "b.cpp" exSchemaB {} rfl

/-! ## Claim C5 -/

/-- A `qxg:config` element carrying no attributes at all. -/
def exC5Conf : XNode := .mk (qxgKey "config") [] none []

def exSchemaC5 : XNode := .mk (xsT "schema") [] none [exC5Conf]

def exSchemaNoConf : XNode := .mk (xsT "schema") [] none []

/-- Claim C5, counterexample: with a `qxg:config` element present but no
`class` attribute, the class name is the empty string, not the
title-cased base name of the input file. -/
theorem c5_counterexample :
    (configPhase "schema.xsd" exSchemaC5).map QxgConfig.className = .ok "" ∧
    pyTitle (splitextRoot (pyBasename "schema.xsd")) = "Schema" ∧
    ("" : String) ≠ "Schema" :=
  ⟨rfl, rfl, by decide⟩

theorem read_config_class_none (c : XNode) (cfg : QxgConfig)
    (hclass : XNode.attr? c "class" = none)
    (hok : read_config c = .ok cfg) : cfg.className = "" := by
  unfold read_config at hok
  rw [hclass] at hok
  cases hp : XNode.attr? c "prefix" <;> simp only [hp] at hok <;>
  cases hn : XNode.attr? c "ns" <;> simp only [hn] at hok <;>
  cases hs : XNode.attr? c "stdcompat" <;> simp only [hs] at hok <;>
  cases hu : XNode.attr? c "schemaUrl" <;> simp only [hu] at hok <;>
  cases hv : XNode.attr? c "visibility" <;>
    simp only [hv, Bind.bind, Except.bind] at hok <;>
  first
  | (cases hok; rfl)
  | (rename_i v
     cases hvv : Visibility.ofValue (pyLower v) <;>
      simp only [hvv] at hok <;>
      (try cases hok) <;> (try rfl))

/-- Claim C5, amended: the title-cased default applies only when the
schema has no `qxg:config` element at all; when a `qxg:config` element is
present without a `class` attribute, the configuration's class name is
the empty string (the config is rebuilt from `QxgConfig()` without the
input path). -/
theorem c5_theorem (xsd_path : String) (root : XNode) :
    (findChild root (qxgKey "config") = none →
      configPhase xsd_path root = .ok (QxgConfig.init (some xsd_path)) ∧
      (QxgConfig.init (some xsd_path)).className =
        pyTitle (splitextRoot (pyBasename xsd_path))) ∧
    (∀ c cfg, findChild root (qxgKey "config") = some c →
      XNode.attr? c "class" = none →
      configPhase xsd_path root = .ok cfg →
      cfg.className = "") := by
  constructor
  · intro hnone
    constructor
    · unfold configPhase
      rw [hnone]
    · rfl
  · intro c cfg hsome hclass hok
    unfold configPhase at hok
    rw [hsome] at hok
    exact read_config_class_none c cfg hclass hok

theorem c5_witness :
    (configPhase "noconf.xsd" exSchemaNoConf = .ok (QxgConfig.init (some "noconf.xsd")) ∧
      (QxgConfig.init (some "noconf.xsd")).className =
        pyTitle (splitextRoot (pyBasename "noconf.xsd"))) ∧
    ({} : QxgConfig).className = "" :=
  ⟨(c5_theorem ("noconf.xsd") exSchemaNoConf).1 rfl,
   (c5_theorem ("schema.xsd") exSchemaC5).2 exC5Conf {} rfl rfl rfl⟩

/-! ## Claim C6 -/

def exC6Choice : XNode :=
  .mk (xsT "choice") [(qxgKey "member", "m")] none
    [.mk (xsT "element") [("name", "e"), ("type", "E")] none []]

def exC6Type : XNode := .mk (xsT "complexType") [("name", "T")] none [exC6Choice]

/-- Claim C6, counterexample: the choice child carries the default
occurrence `(1,1)`, yet `read_single_content` still wraps the parsed
choice in a synthetic one-slot sequence — the wrapping is not restricted
to non-`(1,1)` occurrences. -/
theorem c6_counterexample :
    read_occurs exC6Choice = .ok (1, 1) ∧
    read_single_content xsUri2001 xs_type_map_init [] genFuel exC6Type =
      .ok (some (.seqC (.mk [.mk 1 1 (.choiceC
        { choices := [{ name := "e", member := "e", type_key := "E" }],
          unordered := false, member := "m" })]))) :=
  ⟨rfl, rfl⟩

theorem wrapWithCount_isSeq (content : ContentDef) (sub : XNode) (ac : Bool)
    (r : ContentDef) (h : wrapWithCount content sub ac = .ok (some r)) :
    isSeqContent r = true := by
  unfold wrapWithCount at h
  cases ho : (if ac then read_occurs sub else Except.ok ((1 : Int), (1 : Int))) with
  | error e => rw [ho] at h; cases h
  | ok occ =>
    rw [ho] at h
    simp only [Bind.bind, Except.bind] at h
    split at h
    · cases h
    · cases h
      rfl

/-- Claim C6, amended: the probes run in the order sequence, choice, all,
element, group and the first hit dictates the parser; any successful
non-empty result is a Sequence at the top — content that is not already a
sequence is wrapped in a synthetic one-slot sequence regardless of the
occurrence, the slot bounds coming from the probed node for choice,
element and group and staying `(1,1)` for all; and `inherit` combined
with a non-`(1,1)` occurrence raises. -/
theorem c6_theorem (nsXs : String) (xsMap : StrMap) (methods : List QxgMethod)
    (fuel : Nat) (node : XNode) :
    (∀ r, read_single_content nsXs xsMap methods fuel node = .ok (some r) →
      isSeqContent r = true) ∧
    (∀ sub, findChild node (nsTag nsXs "sequence") = some sub →
      read_single_content nsXs xsMap methods fuel node =
        (read_sequence_content nsXs xsMap methods fuel sub).map (fun s => some (.seqC s))) ∧
    (∀ sub, findChild node (nsTag nsXs "sequence") = none →
      findChild node (nsTag nsXs "choice") = some sub →
      read_single_content nsXs xsMap methods fuel node =
        (read_choice_content nsXs xsMap methods fuel sub false).bind
          (fun c => wrapWithCount (.choiceC c) sub true)) ∧
    (∀ sub t occ, findChild node (nsTag nsXs "sequence") = none →
      findChild node (nsTag nsXs "choice") = none →
      findChild node (nsTag nsXs "all") = none →
      findChild node (nsTag nsXs "element") = some sub →
      read_type_content nsXs xsMap methods sub true false = .ok t →
      read_occurs sub = .ok occ →
      (occ.1 ≠ 1 ∨ occ.2 ≠ 1) → t.inherit = true →
      read_single_content nsXs xsMap methods fuel node =
        .error (.exc ("Found qxg:inherit on " ++ ns_replace (XNode.tag sub)
          ++ " - but it is not allowed in combination with occurs"))) := by
  refine ⟨?_, ?_, ?_, ?_⟩
  · intro r h
    unfold read_single_content at h
    cases h1 : findChild node (nsTag nsXs "sequence") with
    | some sub =>
      simp only [h1] at h
      cases hs : read_sequence_content nsXs xsMap methods fuel sub <;>
        rw [hs] at h <;> simp [Except.map] at h
      rw [← h]
      rfl
    | none =>
      simp only [h1] at h
      cases h2 : findChild node (nsTag nsXs "choice") with
      | some sub =>
        simp only [h2] at h
        cases hc : read_choice_content nsXs xsMap methods fuel sub false <;>
          rw [hc] at h <;> simp only [Bind.bind, Except.bind] at h
        · cases h
        · exact wrapWithCount_isSeq _ _ _ _ h
      | none =>
        simp only [h2] at h
        cases h3 : findChild node (nsTag nsXs "all") with
        | some sub =>
          simp only [h3] at h
          cases ha : read_all_content nsXs xsMap methods fuel sub <;>
            rw [ha] at h <;> simp only [Bind.bind, Except.bind] at h
          · cases h
          · exact wrapWithCount_isSeq _ _ _ _ h
        | none =>
          simp only [h3] at h
          cases h4 : findChild node (nsTag nsXs "element") with
          | some sub =>
            simp only [h4] at h
            cases ht : read_type_content nsXs xsMap methods sub true false <;>
              rw [ht] at h <;> simp only [Bind.bind, Except.bind] at h
            · cases h
            · exact wrapWithCount_isSeq _ _ _ _ h
          | none =>
            simp only [h4] at h
            cases h5 : findChild node (nsTag nsXs "group") with
            | some sub =>
              simp only [h5] at h
              cases ht : read_type_content nsXs xsMap methods sub true false <;>
                rw [ht] at h <;> simp only [Bind.bind, Except.bind] at h
              · cases h
              · exact wrapWithCount_isSeq _ _ _ _ h
            | none =>
              simp only [h5] at h
              simp at h
  · intro sub h1
    unfold read_single_content
    rw [h1]
  · intro sub h1 h2
    unfold read_single_content
    rw [h1, h2]
    rfl
  · intro sub t occ h1 h2 h3 h4 ht ho hocc hinh
    unfold read_single_content
    rw [h1, h2, h3, h4]
    show (read_type_content nsXs xsMap methods sub true false).bind
      (fun t1 => wrapWithCount (.typeC t1) sub true) = _
    rw [ht]
    simp only [Bind.bind, Except.bind]
    unfold wrapWithCount
    simp only [if_true]
    rw [ho]
    simp only [Bind.bind, Except.bind]
    rw [if_pos]
    exact ⟨hocc, by simp [ContentDef.is_inherited, hinh]⟩

def exC6InhElem : XNode :=
  .mk (xsT "element")
    [("name", "e"), ("type", "E"), (qxgKey "inherit", "true"), ("maxOccurs", "2")] none []

def exC6InhType : XNode := .mk (xsT "complexType") [("name", "T")] none [exC6InhElem]

theorem c6_witness :
    read_single_content xsUri2001 xs_type_map_init [] genFuel exC6InhType =
      .error (.exc "Found qxg:inherit on xs:element - but it is not allowed in combination with occurs") :=
  (((c6_theorem xsUri2001 xs_type_map_init [] genFuel exC6InhType).2.2.2 exC6InhElem
    { name := "e", member := "e", type_key := "E", inherit := true } (1, 2)
    rfl rfl rfl rfl rfl rfl (Or.inr (by decide)) rfl)).trans rfl

/-! ## Claim C7 -/

/-- Inversion of a successful `Except` bind. -/
theorem except_bind_ok {ε α β : Type} (ma : Except ε α) (f : α → Except ε β) (b : β)
    (h : ma >>= f = .ok b) : ∃ a, ma = .ok a ∧ f a = .ok b := by
  cases ma with
  | error e => simp [Bind.bind, Except.bind] at h
  | ok a => exact ⟨a, rfl, by simpa [Bind.bind, Except.bind] using h⟩

/-- Inversion of a successful `Except` map. -/
theorem except_map_ok {ε α β : Type} (ma : Except ε α) (f : α → β) (b : β)
    (h : Except.map f ma = .ok b) : ∃ a, ma = .ok a ∧ f a = b := by
  cases ma with
  | error e => simp [Except.map] at h
  | ok a =>
    simp only [Except.map] at h
    cases h
    exact ⟨a, rfl, rfl⟩

/-- No slot produced by a successful sequence parse holds a `Sequence`. -/
theorem seqNoSeqAux (nsXs : String) (xsMap : StrMap) (methods : List QxgMethod) :
    ∀ fuel : Nat,
      (∀ l es, read_sequence_children nsXs xsMap methods fuel l = .ok es →
        ∀ e ∈ es, isSeqContent (SeqElem.element e) = false) ∧
      (∀ node sub, read_sequence_content nsXs xsMap methods fuel node = .ok sub →
        ∀ e ∈ sub.elements, isSeqContent (SeqElem.element e) = false) := by
  intro fuel
  induction fuel with
  | zero =>
    constructor
    · intro l es h e he
      cases l with
      | nil => cases h; cases he
      | cons c r => exact Except.noConfusion h
    · intro node sub h
      exact Except.noConfusion h
  | succ fuel ih =>
    constructor
    · intro l es h e he
      cases l with
      | nil => cases h; cases he
      | cons child rest =>
        simp only [read_sequence_children] at h
        obtain ⟨occ, hocc, h⟩ := except_bind_ok _ _ _ h
        obtain ⟨contrib, hcon, h⟩ := except_bind_ok _ _ _ h
        obtain ⟨tailEs, htail, h⟩ := except_bind_ok _ _ _ h
        cases h
        cases List.mem_append.mp he with
        | inr hm => exact ih.1 rest tailEs htail e hm
        | inl hm =>
          split at hcon
          · split at hcon
            · exact Except.noConfusion hcon
            · obtain ⟨sub, hs, hcon⟩ := except_map_ok _ _ _ hcon
              cases hcon
              exact ih.2 child sub hs e hm
          · split at hcon
            · obtain ⟨c1, hc1, hcon⟩ := except_map_ok _ _ _ hcon
              cases hcon
              cases hm with
              | head => rfl
              | tail _ hm2 => cases hm2
            · split at hcon
              · exact Except.noConfusion hcon
              · split at hcon
                · split at hcon
                  · exact Except.noConfusion hcon
                  · obtain ⟨tc, htc, hcon⟩ := except_map_ok _ _ _ hcon
                    cases hcon
                    cases hm with
                    | head => rfl
                    | tail _ hm2 => cases hm2
                · exact Except.noConfusion hcon
    · intro node sub h
      simp only [read_sequence_content] at h
      obtain ⟨es, hes, h⟩ := except_bind_ok _ _ _ h
      cases h
      exact ih.1 _ _ hes

/-- Claim C7: a directly nested `xs:sequence` with bounds other than
`(1,1)` is rejected when the child loop reaches it; a successful build
never yields a slot holding a `Sequence`; and a `(1,1)`-nested sequence
is spliced slot-wise into the enclosing sequence. -/
theorem c7_theorem (nsXs : String) (xsMap : StrMap) (methods : List QxgMethod) :
    (∀ fuel child rest occ, ns_replace (XNode.tag child) = "xs:sequence" →
      read_occurs child = .ok occ → ¬(occ.1 = 1 ∧ occ.2 = 1) →
      read_sequence_children nsXs xsMap methods (fuel + 1) (child :: rest) =
        .error (.exc "A xs:sequence with not exactly 1 occurrence within a xs:sequence is not supported. Make the inner xs:sequence a xs:group")) ∧
    (∀ fuel l es, read_sequence_children nsXs xsMap methods fuel l = .ok es →
      ∀ e ∈ es, isSeqContent (SeqElem.element e) = false) ∧
    (∀ fuel child rest sub es, ns_replace (XNode.tag child) = "xs:sequence" →
      read_occurs child = .ok (1, 1) →
      read_sequence_content nsXs xsMap methods fuel child = .ok sub →
      read_sequence_children nsXs xsMap methods fuel rest = .ok es →
      read_sequence_children nsXs xsMap methods (fuel + 1) (child :: rest) =
        .ok (sub.elements ++ es)) := by
  refine ⟨?_, ?_, ?_⟩
  · intro fuel child rest occ htag hocc hnot
    simp only [read_sequence_children, htag, hocc, Bind.bind, Except.bind, if_pos hnot]
    simp
  · intro fuel l es h
    exact (seqNoSeqAux nsXs xsMap methods fuel).1 l es h
  · intro fuel child rest sub es htag hocc hsub hres
    simp only [read_sequence_children, htag, hocc, hsub, hres, Bind.bind, Except.bind,
      Except.map, if_pos]
    simp

/-- A child `xs:sequence` carrying `maxOccurs="2"`. -/
def exC7Bad : XNode := .mk (xsT "sequence") [("maxOccurs", "2")] none []

/-- A child `xs:sequence` with default occurrence holding one element. -/
def exC7Inner : XNode :=
  .mk (xsT "sequence") [] none
    [.mk (xsT "element") [("name", "e"), ("type", "E")] none []]

theorem c7_witness :
    read_sequence_children xsUri2001 xs_type_map_init [] (genFuel + 1) [exC7Bad] =
      .error (.exc "A xs:sequence with not exactly 1 occurrence within a xs:sequence is not supported. Make the inner xs:sequence a xs:group") ∧
    read_sequence_children xsUri2001 xs_type_map_init [] (genFuel + 1) [exC7Inner] =
      .ok [SeqElem.mk 1 1 (.typeC { name := "e", member := "e", type_key := "E" })] :=
  ⟨(c7_theorem xsUri2001 xs_type_map_init []).1 genFuel exC7Bad [] (1, 2) rfl rfl (by decide),
   ((c7_theorem xsUri2001 xs_type_map_init []).2.2 genFuel exC7Inner []
     (.mk [SeqElem.mk 1 1 (.typeC { name := "e", member := "e", type_key := "E" })]) []
     rfl rfl rfl rfl).trans rfl⟩

/-! ## Claim C8 -/

/-- Every child consumed by a successful choice-children parse is an
`xs:choice` or an `xs:element`. -/
theorem choiceChildrenTags (nsXs : String) (xsMap : StrMap) (methods : List QxgMethod) :
    ∀ fuel unordered l cs,
      read_choice_children nsXs xsMap methods unordered fuel l = .ok cs →
      ∀ child ∈ l, ns_replace (XNode.tag child) = "xs:choice" ∨
        ns_replace (XNode.tag child) = "xs:element" := by
  intro fuel
  induction fuel with
  | zero =>
    intro unordered l cs h child hm
    cases l with
    | nil => cases hm
    | cons c r => exact Except.noConfusion h
  | succ fuel ih =>
    intro unordered l cs h child hm
    cases l with
    | nil => cases hm
    | cons c r =>
      simp only [read_choice_children] at h
      by_cases h1 : ns_replace (XNode.tag c) = "xs:choice"
      · rw [if_pos h1] at h
        cases hm with
        | head => exact Or.inl h1
        | tail _ hm2 =>
          obtain ⟨sub, hsub, h⟩ := except_bind_ok _ _ _ h
          obtain ⟨tailCs, htail, h⟩ := except_bind_ok _ _ _ h
          exact ih unordered r tailCs htail child hm2
      · rw [if_neg h1] at h
        by_cases h2 : ns_replace (XNode.tag c) = "xs:element"
        · rw [if_pos h2] at h
          cases hm with
          | head => exact Or.inr h2
          | tail _ hm2 =>
            obtain ⟨tc, htc, h⟩ := except_bind_ok _ _ _ h
            obtain ⟨tailCs, htail, h⟩ := except_bind_ok _ _ _ h
            exact ih unordered r tailCs htail child hm2
        · rw [if_neg h2] at h
          exact Except.noConfusion h

/-- Claim C8: a child that is neither `xs:choice` nor `xs:element` raises
(so a successful choice never consumed a `Sequence` or an `All`);
`qxg:unordered` raises when the caller does not allow it; and a
non-unordered choice without an explicit `qxg:member` raises. -/
theorem c8_theorem (nsXs : String) (xsMap : StrMap) (methods : List QxgMethod) :
    (∀ fuel unordered l cs,
      read_choice_children nsXs xsMap methods unordered fuel l = .ok cs →
      ∀ child ∈ l, ns_replace (XNode.tag child) = "xs:choice" ∨
        ns_replace (XNode.tag child) = "xs:element") ∧
    (∀ fuel unordered child rest,
      ns_replace (XNode.tag child) ≠ "xs:choice" →
      ns_replace (XNode.tag child) ≠ "xs:element" →
      read_choice_children nsXs xsMap methods unordered (fuel + 1) (child :: rest) =
        .error (.exc ("Unsupported element " ++ ns_replace (XNode.tag child)
          ++ " within a xs:choice"))) ∧
    (∀ fuel node u, read_qxg nsXs xsMap node "unordered" "false" false = .ok u →
      pyLower u = "true" →
      read_choice_content nsXs xsMap methods (fuel + 1) node false =
        .error (.exc "Found qxg:unordered in xs:choice, but that is only allowed for choices that are in a xs:sequence")) ∧
    (∀ fuel node u allow, read_qxg nsXs xsMap node "unordered" "false" false = .ok u →
      pyLower u ≠ "true" →
      read_qxg nsXs xsMap node "member" "" false = .ok "" →
      read_choice_content nsXs xsMap methods (fuel + 1) node allow =
        .error (.exc "A xs:choice must have an explicitly set qxg:member")) := by
  refine ⟨choiceChildrenTags nsXs xsMap methods, ?_, ?_, ?_⟩
  · intro fuel unordered child rest h1 h2
    simp only [read_choice_children, if_neg h1, if_neg h2]
  · intro fuel node u hq hpu
    simp only [read_choice_content, hq, Except.map, Bind.bind, Except.bind, hpu]
    simp
  · intro fuel node u allow hq hpu hmem
    have hb : (pyLower u == "true") = false := beq_eq_false_iff_ne.mpr hpu
    simp only [read_choice_content, hq, hmem, Except.map, Bind.bind, Except.bind, hb]
    simp

def exC8Elem : XNode := .mk (xsT "element") [("name", "e"), ("type", "E")] none []

def exC8Seq : XNode := .mk (xsT "sequence") [] none []

def exC8Unordered : XNode := .mk (xsT "choice") [(qxgKey "unordered", "true")] none []

def exC8NoMember : XNode := .mk (xsT "choice") [] none []

theorem c8_witness :
    (ns_replace (XNode.tag exC8Elem) = "xs:choice" ∨
      ns_replace (XNode.tag exC8Elem) = "xs:element") ∧
    read_choice_children xsUri2001 xs_type_map_init [] false (genFuel + 1) [exC8Seq] =
      .error (.exc "Unsupported element xs:sequence within a xs:choice") ∧
    read_choice_content xsUri2001 xs_type_map_init [] (genFuel + 1) exC8Unordered false =
      .error (.exc "Found qxg:unordered in xs:choice, but that is only allowed for choices that are in a xs:sequence") ∧
    read_choice_content xsUri2001 xs_type_map_init [] (genFuel + 1) exC8NoMember true =
      .error (.exc "A xs:choice must have an explicitly set qxg:member") :=
  ⟨(c8_theorem xsUri2001 xs_type_map_init []).1 (genFuel + 1) false [exC8Elem]
      [{ name := "e", member := "e", type_key := "E" }] rfl exC8Elem (by simp),
   ((c8_theorem xsUri2001 xs_type_map_init []).2.1 genFuel false exC8Seq []
      (by decide) (by decide)).trans rfl,
   (c8_theorem xsUri2001 xs_type_map_init []).2.2.1 genFuel exC8Unordered "true" rfl rfl,
   (c8_theorem xsUri2001 xs_type_map_init []).2.2.2 genFuel exC8NoMember "false" true
      rfl (by decide) rfl⟩

/-! ## Claim C10 -/

/-- Claim C10: a simple type whose `xs:restriction` has no
`xs:enumeration` children becomes a plain alias whose xml type is the
restriction base and whose host type comes from `read_qxg` over the base;
and `read_qxg` returns the `qxg:type` override when present, else the
default mapped through `xs_type_map`. -/
theorem c10_theorem (nsXs : String) (xsMap : StrMap) (node : XNode) :
    (∀ cn b ct nm,
      findChild node (nsTag nsXs "list") = none →
      findChild node (nsTag nsXs "union") = none →
      findChild node (nsTag nsXs "restriction") = some cn →
      findAll cn (nsTag nsXs "enumeration") = [] →
      XNode.attrE cn "base" = .ok b →
      read_qxg nsXs xsMap cn "type" b true = .ok ct →
      XNode.attrE node "name" = .ok nm →
      read_simple_type nsXs xsMap node = .ok (.plainB nm b ct)) ∧
    (∀ cn b t, XNode.attr? cn (ns_replace_inv nsXs "qxg:type") = some t →
      read_qxg nsXs xsMap cn "type" b true = .ok t) ∧
    (∀ cn b, XNode.attr? cn (ns_replace_inv nsXs "qxg:type") = none →
      read_qxg nsXs xsMap cn "type" b true = dictGetE xsMap b) := by
  refine ⟨?_, ?_, ?_⟩
  · intro cn b ct nm hl hu hr he hb hq hn
    simp only [read_simple_type, hl, hu, hr, read_simple_enum_type, he, hb, hq, hn,
      Bind.bind, Except.bind, List.mapM, List.mapM.loop, List.isEmpty]
    simp [Pure.pure, Except.pure, BasicTypeDef.setName]
  · intro cn b t ht
    have e : ("qxg:" ++ "type" : String) = "qxg:type" := rfl
    simp only [read_qxg, e, ht]
  · intro cn b hn
    have e : ("qxg:" ++ "type" : String) = "qxg:type" := rfl
    simp only [read_qxg, e, hn]
    simp

theorem c10_witness :
    read_simple_type xsUri2001 xs_type_map_init exSimpleFoo =
      .ok (.plainB "Foo" "xs:string" "QString") ∧
    read_qxg xsUri2001 xs_type_map_init exFooRestr "type" "xs:string" true =
      dictGetE xs_type_map_init "xs:string" :=
  ⟨(c10_theorem xsUri2001 xs_type_map_init exSimpleFoo).1 exFooRestr "xs:string" "QString"
      "Foo" rfl rfl rfl rfl rfl rfl rfl,
   (c10_theorem xsUri2001 xs_type_map_init exSimpleFoo).2.2 exFooRestr "xs:string" rfl⟩
